import Mathlib

/-!
Shallow embedding of `src/app.py` (uniqueID_Gen): the deterministic
identifier generator `generate_deterministic_unique_id_with_initials`,
the batch applicator `process_dataframe`, and the duplicate statistics
computed in `main`.  Machine words are `Nat` with explicit `% 2^32`;
bytes are `Nat` below 256.
-/

set_option maxRecDepth 100000

namespace UniqueID

/-- 2^32, the word modulus of SHA-256 arithmetic. -/
def M32 : Nat := 4294967296

/-- Right rotation of a 32-bit word represented as a `Nat` below `M32`. -/
def rotr (n x : Nat) : Nat := ((x >>> n) ||| (x <<< (32 - n))) % M32

/-- SHA-256 small sigma 0. -/
def ssig0 (x : Nat) : Nat := (rotr 7 x) ^^^ (rotr 18 x) ^^^ (x >>> 3)

/-- SHA-256 small sigma 1. -/
def ssig1 (x : Nat) : Nat := (rotr 17 x) ^^^ (rotr 19 x) ^^^ (x >>> 10)

/-- SHA-256 big sigma 0. -/
def bsig0 (x : Nat) : Nat := (rotr 2 x) ^^^ (rotr 13 x) ^^^ (rotr 22 x)

/-- SHA-256 big sigma 1. -/
def bsig1 (x : Nat) : Nat := (rotr 6 x) ^^^ (rotr 11 x) ^^^ (rotr 25 x)

/-- SHA-256 choice function; complement is taken within 32 bits. -/
def chF (x y z : Nat) : Nat := (x &&& y) ^^^ ((x ^^^ 4294967295) &&& z)

/-- SHA-256 majority function. -/
def majF (x y z : Nat) : Nat := (x &&& y) ^^^ (x &&& z) ^^^ (y &&& z)

/-- The 64 SHA-256 round constants of FIPS 180-4, written in decimal. -/
def K64 : List Nat :=
  [1116352408, 1899447441, 3049323471, 3921009573, 961987163,
   1508970993, 2453635748, 2870763221, 3624381080, 310598401,
   607225278, 1426881987, 1925078388, 2162078206, 2614888103,
   3248222580, 3835390401, 4022224774, 264347078, 604807628,
   770255983, 1249150122, 1555081692, 1996064986, 2554220882,
   2821834349, 2952996808, 3210313671, 3336571891, 3584528711,
   113926993, 338241895, 666307205, 773529912, 1294757372,
   1396182291, 1695183700, 1986661051, 2177026350, 2456956037,
   2730485921, 2820302411, 3259730800, 3345764771, 3516065817,
   3600352804, 4094571909, 275423344, 430227734, 506948616,
   659060556, 883997877, 958139571, 1322822218, 1537002063,
   1747873779, 1955562222, 2024104815, 2227730452, 2361852424,
   2428436474, 2756734187, 3204031479, 3329325298]

/-- The initial SHA-256 hash state of FIPS 180-4, written in decimal. -/
def H0 : List Nat :=
  [1779033703, 3144134277, 1013904242, 2773480762,
   1359893119, 2600822924, 528734635, 1541459225]

/-- Group a byte list into big-endian 32-bit words. -/
def toWords : List Nat → List Nat
  | b0 :: b1 :: b2 :: b3 :: rest =>
      (b0 * 16777216 + b1 * 65536 + b2 * 256 + b3) :: toWords rest
  | _ => []

/-- Extend the 16 message-schedule words to 64, one word per fuel step. -/
def buildW : List Nat → Nat → List Nat
  | w, 0 => w
  | w, fuel + 1 =>
      if w.length ≥ 64 then w
      else
        buildW (w ++ [(ssig1 (w.getD (w.length - 2) 0) + w.getD (w.length - 7) 0 +
          ssig0 (w.getD (w.length - 15) 0) + w.getD (w.length - 16) 0) % M32]) fuel

/-- The SHA-256 round loop over the round constants and message schedule. -/
def compress : List Nat → List Nat → List Nat → List Nat
  | kk :: kt, ww :: wt, [a, b, c, d, e, f, g, h] =>
      compress kt wt
        [((h + bsig1 e + chF e f g + kk + ww) % M32 + (bsig0 a + majF a b c) % M32) % M32,
         a, b, c, (d + (h + bsig1 e + chF e f g + kk + ww) % M32) % M32, e, f, g]
  | _, _, st => st

/-- Process one 64-byte block into the running hash state. -/
def processBlock (h8 : List Nat) (block : List Nat) : List Nat :=
  List.zipWith (fun x y => (x + y) % M32) h8 (compress K64 (buildW (toWords block) 48) h8)

/-- Split a byte list into 64-byte chunks (fuel-driven so it reduces in the kernel). -/
def chunk64 : Nat → List Nat → List (List Nat)
  | 0, _ => []
  | _, [] => []
  | fuel + 1, l => l.take 64 :: chunk64 fuel (l.drop 64)

/-- The message length in bits as 8 big-endian bytes. -/
def lenBE8 (n : Nat) : List Nat :=
  [(n >>> 56) % 256, (n >>> 48) % 256, (n >>> 40) % 256, (n >>> 32) % 256,
   (n >>> 24) % 256, (n >>> 16) % 256, (n >>> 8) % 256, n % 256]

/-- SHA-256 padding: a 0x80 byte, zeros to 56 mod 64, then the bit length. -/
def padBytes (msg : List Nat) : List Nat :=
  msg ++ 128 :: List.replicate ((64 - (msg.length + 9) % 64) % 64) 0 ++ lenBE8 (8 * msg.length)

/-- A 32-bit word as 4 big-endian bytes. -/
def wordBytes (w : Nat) : List Nat :=
  [(w >>> 24) % 256, (w >>> 16) % 256, (w >>> 8) % 256, w % 256]

/-- SHA-256 of a byte list, as the 32 digest bytes. -/
def sha256Bytes (msg : List Nat) : List Nat :=
  ((chunk64 (msg.length + 73) (padBytes msg)).foldl processBlock H0).foldr
    (fun w acc => wordBytes w ++ acc) []

/-- A hex digit character, lowercase, as produced by Python's hexdigest. -/
def hexDigitChar (d : Nat) : Char :=
  Char.ofNat (if d < 10 then 48 + d else 87 + d)

/-- Two lowercase hex characters of one byte. -/
def byteHex (b : Nat) : List Char :=
  [hexDigitChar (b / 16), hexDigitChar (b % 16)]

/-- Models `hashlib.sha256(...).hexdigest()`: the digest bytes in lowercase hex. -/
def hexdigestStr (bs : List Nat) : String :=
  String.mk (bs.foldr (fun b acc => byteHex b ++ acc) [])

/-- The value of one hex character, as accepted by Python's `int(s, 16)`. -/
def hexCharVal (c : Char) : Nat :=
  if 48 ≤ c.toNat ∧ c.toNat ≤ 57 then c.toNat - 48
  else if 97 ≤ c.toNat ∧ c.toNat ≤ 102 then c.toNat - 87
  else if 65 ≤ c.toNat ∧ c.toNat ≤ 70 then c.toNat - 55
  else 0

/-- Models `int(s, 16)` on a hex string: base-16 big-integer value. -/
def hexToNat (s : String) : Nat :=
  s.data.foldl (fun a c => 16 * a + hexCharVal c) 0

/-- UTF-8 encoding of a single scalar value (as in Python's `str.encode()`). -/
def charUtf8 (c : Char) : List Nat :=
  if c.toNat < 128 then [c.toNat]
  else if c.toNat < 2048 then [192 + (c.toNat >>> 6), 128 + (c.toNat &&& 63)]
  else if c.toNat < 65536 then
    [224 + (c.toNat >>> 12), 128 + ((c.toNat >>> 6) &&& 63), 128 + (c.toNat &&& 63)]
  else
    [240 + (c.toNat >>> 18), 128 + ((c.toNat >>> 12) &&& 63), 128 + ((c.toNat >>> 6) &&& 63),
     128 + (c.toNat &&& 63)]

/-- UTF-8 bytes of a string, models `s.encode()`. -/
def utf8Bytes (s : String) : List Nat :=
  s.data.foldr (fun c acc => charUtf8 c ++ acc) []

/-- Models `f"{n:05d}"` on the reachable range `n < 100000` (the argument is
always reduced `% 100000` first): the five decimal digits, zero-padded. -/
def pad5 (n : Nat) : String :=
  String.mk [Char.ofNat (48 + n / 10000 % 10), Char.ofNat (48 + n / 1000 % 10),
    Char.ofNat (48 + n / 100 % 10), Char.ofNat (48 + n / 10 % 10), Char.ofNat (48 + n % 10)]

/-- Every code point whose Python `str.upper()` differs from itself, with its
full uppercase mapping (generated from the Unicode case tables; at most three
characters).  Code points absent here uppercase to themselves. -/
def upperTable : List (Char × List Char) :=
  [(Char.ofNat 97, [Char.ofNat 65]),
   (Char.ofNat 98, [Char.ofNat 66]),
   (Char.ofNat 99, [Char.ofNat 67]),
   (Char.ofNat 100, [Char.ofNat 68]),
   (Char.ofNat 101, [Char.ofNat 69]),
   (Char.ofNat 102, [Char.ofNat 70]),
   (Char.ofNat 103, [Char.ofNat 71]),
   (Char.ofNat 104, [Char.ofNat 72]),
   (Char.ofNat 105, [Char.ofNat 73]),
   (Char.ofNat 106, [Char.ofNat 74]),
   (Char.ofNat 107, [Char.ofNat 75]),
   (Char.ofNat 108, [Char.ofNat 76]),
   (Char.ofNat 109, [Char.ofNat 77]),
   (Char.ofNat 110, [Char.ofNat 78]),
   (Char.ofNat 111, [Char.ofNat 79]),
   (Char.ofNat 112, [Char.ofNat 80]),
   (Char.ofNat 113, [Char.ofNat 81]),
   (Char.ofNat 114, [Char.ofNat 82]),
   (Char.ofNat 115, [Char.ofNat 83]),
   (Char.ofNat 116, [Char.ofNat 84]),
   (Char.ofNat 117, [Char.ofNat 85]),
   (Char.ofNat 118, [Char.ofNat 86]),
   (Char.ofNat 119, [Char.ofNat 87]),
   (Char.ofNat 120, [Char.ofNat 88]),
   (Char.ofNat 121, [Char.ofNat 89]),
   (Char.ofNat 122, [Char.ofNat 90]),
   (Char.ofNat 181, [Char.ofNat 924]),
   (Char.ofNat 223, [Char.ofNat 83, Char.ofNat 83]),
   (Char.ofNat 224, [Char.ofNat 192]),
   (Char.ofNat 225, [Char.ofNat 193]),
   (Char.ofNat 226, [Char.ofNat 194]),
   (Char.ofNat 227, [Char.ofNat 195]),
   (Char.ofNat 228, [Char.ofNat 196]),
   (Char.ofNat 229, [Char.ofNat 197]),
   (Char.ofNat 230, [Char.ofNat 198]),
   (Char.ofNat 231, [Char.ofNat 199]),
   (Char.ofNat 232, [Char.ofNat 200]),
   (Char.ofNat 233, [Char.ofNat 201]),
   (Char.ofNat 234, [Char.ofNat 202]),
   (Char.ofNat 235, [Char.ofNat 203]),
   (Char.ofNat 236, [Char.ofNat 204]),
   (Char.ofNat 237, [Char.ofNat 205]),
   (Char.ofNat 238, [Char.ofNat 206]),
   (Char.ofNat 239, [Char.ofNat 207]),
   (Char.ofNat 240, [Char.ofNat 208]),
   (Char.ofNat 241, [Char.ofNat 209]),
   (Char.ofNat 242, [Char.ofNat 210]),
   (Char.ofNat 243, [Char.ofNat 211]),
   (Char.ofNat 244, [Char.ofNat 212]),
   (Char.ofNat 245, [Char.ofNat 213]),
   (Char.ofNat 246, [Char.ofNat 214]),
   (Char.ofNat 248, [Char.ofNat 216]),
   (Char.ofNat 249, [Char.ofNat 217]),
   (Char.ofNat 250, [Char.ofNat 218]),
   (Char.ofNat 251, [Char.ofNat 219]),
   (Char.ofNat 252, [Char.ofNat 220]),
   (Char.ofNat 253, [Char.ofNat 221]),
   (Char.ofNat 254, [Char.ofNat 222]),
   (Char.ofNat 255, [Char.ofNat 376]),
   (Char.ofNat 257, [Char.ofNat 256]),
   (Char.ofNat 259, [Char.ofNat 258]),
   (Char.ofNat 261, [Char.ofNat 260]),
   (Char.ofNat 263, [Char.ofNat 262]),
   (Char.ofNat 265, [Char.ofNat 264]),
   (Char.ofNat 267, [Char.ofNat 266]),
   (Char.ofNat 269, [Char.ofNat 268]),
   (Char.ofNat 271, [Char.ofNat 270]),
   (Char.ofNat 273, [Char.ofNat 272]),
   (Char.ofNat 275, [Char.ofNat 274]),
   (Char.ofNat 277, [Char.ofNat 276]),
   (Char.ofNat 279, [Char.ofNat 278]),
   (Char.ofNat 281, [Char.ofNat 280]),
   (Char.ofNat 283, [Char.ofNat 282]),
   (Char.ofNat 285, [Char.ofNat 284]),
   (Char.ofNat 287, [Char.ofNat 286]),
   (Char.ofNat 289, [Char.ofNat 288]),
   (Char.ofNat 291, [Char.ofNat 290]),
   (Char.ofNat 293, [Char.ofNat 292]),
   (Char.ofNat 295, [Char.ofNat 294]),
   (Char.ofNat 297, [Char.ofNat 296]),
   (Char.ofNat 299, [Char.ofNat 298]),
   (Char.ofNat 301, [Char.ofNat 300]),
   (Char.ofNat 303, [Char.ofNat 302]),
   (Char.ofNat 305, [Char.ofNat 73]),
   (Char.ofNat 307, [Char.ofNat 306]),
   (Char.ofNat 309, [Char.ofNat 308]),
   (Char.ofNat 311, [Char.ofNat 310]),
   (Char.ofNat 314, [Char.ofNat 313]),
   (Char.ofNat 316, [Char.ofNat 315]),
   (Char.ofNat 318, [Char.ofNat 317]),
   (Char.ofNat 320, [Char.ofNat 319]),
   (Char.ofNat 322, [Char.ofNat 321]),
   (Char.ofNat 324, [Char.ofNat 323]),
   (Char.ofNat 326, [Char.ofNat 325]),
   (Char.ofNat 328, [Char.ofNat 327]),
   (Char.ofNat 329, [Char.ofNat 700, Char.ofNat 78]),
   (Char.ofNat 331, [Char.ofNat 330]),
   (Char.ofNat 333, [Char.ofNat 332]),
   (Char.ofNat 335, [Char.ofNat 334]),
   (Char.ofNat 337, [Char.ofNat 336]),
   (Char.ofNat 339, [Char.ofNat 338]),
   (Char.ofNat 341, [Char.ofNat 340]),
   (Char.ofNat 343, [Char.ofNat 342]),
   (Char.ofNat 345, [Char.ofNat 344]),
   (Char.ofNat 347, [Char.ofNat 346]),
   (Char.ofNat 349, [Char.ofNat 348]),
   (Char.ofNat 351, [Char.ofNat 350]),
   (Char.ofNat 353, [Char.ofNat 352]),
   (Char.ofNat 355, [Char.ofNat 354]),
   (Char.ofNat 357, [Char.ofNat 356]),
   (Char.ofNat 359, [Char.ofNat 358]),
   (Char.ofNat 361, [Char.ofNat 360]),
   (Char.ofNat 363, [Char.ofNat 362]),
   (Char.ofNat 365, [Char.ofNat 364]),
   (Char.ofNat 367, [Char.ofNat 366]),
   (Char.ofNat 369, [Char.ofNat 368]),
   (Char.ofNat 371, [Char.ofNat 370]),
   (Char.ofNat 373, [Char.ofNat 372]),
   (Char.ofNat 375, [Char.ofNat 374]),
   (Char.ofNat 378, [Char.ofNat 377]),
   (Char.ofNat 380, [Char.ofNat 379]),
   (Char.ofNat 382, [Char.ofNat 381]),
   (Char.ofNat 383, [Char.ofNat 83]),
   (Char.ofNat 384, [Char.ofNat 579]),
   (Char.ofNat 387, [Char.ofNat 386]),
   (Char.ofNat 389, [Char.ofNat 388]),
   (Char.ofNat 392, [Char.ofNat 391]),
   (Char.ofNat 396, [Char.ofNat 395]),
   (Char.ofNat 402, [Char.ofNat 401]),
   (Char.ofNat 405, [Char.ofNat 502]),
   (Char.ofNat 409, [Char.ofNat 408]),
   (Char.ofNat 410, [Char.ofNat 573]),
   (Char.ofNat 414, [Char.ofNat 544]),
   (Char.ofNat 417, [Char.ofNat 416]),
   (Char.ofNat 419, [Char.ofNat 418]),
   (Char.ofNat 421, [Char.ofNat 420]),
   (Char.ofNat 424, [Char.ofNat 423]),
   (Char.ofNat 429, [Char.ofNat 428]),
   (Char.ofNat 432, [Char.ofNat 431]),
   (Char.ofNat 436, [Char.ofNat 435]),
   (Char.ofNat 438, [Char.ofNat 437]),
   (Char.ofNat 441, [Char.ofNat 440]),
   (Char.ofNat 445, [Char.ofNat 444]),
   (Char.ofNat 447, [Char.ofNat 503]),
   (Char.ofNat 453, [Char.ofNat 452]),
   (Char.ofNat 454, [Char.ofNat 452]),
   (Char.ofNat 456, [Char.ofNat 455]),
   (Char.ofNat 457, [Char.ofNat 455]),
   (Char.ofNat 459, [Char.ofNat 458]),
   (Char.ofNat 460, [Char.ofNat 458]),
   (Char.ofNat 462, [Char.ofNat 461]),
   (Char.ofNat 464, [Char.ofNat 463]),
   (Char.ofNat 466, [Char.ofNat 465]),
   (Char.ofNat 468, [Char.ofNat 467]),
   (Char.ofNat 470, [Char.ofNat 469]),
   (Char.ofNat 472, [Char.ofNat 471]),
   (Char.ofNat 474, [Char.ofNat 473]),
   (Char.ofNat 476, [Char.ofNat 475]),
   (Char.ofNat 477, [Char.ofNat 398]),
   (Char.ofNat 479, [Char.ofNat 478]),
   (Char.ofNat 481, [Char.ofNat 480]),
   (Char.ofNat 483, [Char.ofNat 482]),
   (Char.ofNat 485, [Char.ofNat 484]),
   (Char.ofNat 487, [Char.ofNat 486]),
   (Char.ofNat 489, [Char.ofNat 488]),
   (Char.ofNat 491, [Char.ofNat 490]),
   (Char.ofNat 493, [Char.ofNat 492]),
   (Char.ofNat 495, [Char.ofNat 494]),
   (Char.ofNat 496, [Char.ofNat 74, Char.ofNat 780]),
   (Char.ofNat 498, [Char.ofNat 497]),
   (Char.ofNat 499, [Char.ofNat 497]),
   (Char.ofNat 501, [Char.ofNat 500]),
   (Char.ofNat 505, [Char.ofNat 504]),
   (Char.ofNat 507, [Char.ofNat 506]),
   (Char.ofNat 509, [Char.ofNat 508]),
   (Char.ofNat 511, [Char.ofNat 510]),
   (Char.ofNat 513, [Char.ofNat 512]),
   (Char.ofNat 515, [Char.ofNat 514]),
   (Char.ofNat 517, [Char.ofNat 516]),
   (Char.ofNat 519, [Char.ofNat 518]),
   (Char.ofNat 521, [Char.ofNat 520]),
   (Char.ofNat 523, [Char.ofNat 522]),
   (Char.ofNat 525, [Char.ofNat 524]),
   (Char.ofNat 527, [Char.ofNat 526]),
   (Char.ofNat 529, [Char.ofNat 528]),
   (Char.ofNat 531, [Char.ofNat 530]),
   (Char.ofNat 533, [Char.ofNat 532]),
   (Char.ofNat 535, [Char.ofNat 534]),
   (Char.ofNat 537, [Char.ofNat 536]),
   (Char.ofNat 539, [Char.ofNat 538]),
   (Char.ofNat 541, [Char.ofNat 540]),
   (Char.ofNat 543, [Char.ofNat 542]),
   (Char.ofNat 547, [Char.ofNat 546]),
   (Char.ofNat 549, [Char.ofNat 548]),
   (Char.ofNat 551, [Char.ofNat 550]),
   (Char.ofNat 553, [Char.ofNat 552]),
   (Char.ofNat 555, [Char.ofNat 554]),
   (Char.ofNat 557, [Char.ofNat 556]),
   (Char.ofNat 559, [Char.ofNat 558]),
   (Char.ofNat 561, [Char.ofNat 560]),
   (Char.ofNat 563, [Char.ofNat 562]),
   (Char.ofNat 572, [Char.ofNat 571]),
   (Char.ofNat 575, [Char.ofNat 11390]),
   (Char.ofNat 576, [Char.ofNat 11391]),
   (Char.ofNat 578, [Char.ofNat 577]),
   (Char.ofNat 583, [Char.ofNat 582]),
   (Char.ofNat 585, [Char.ofNat 584]),
   (Char.ofNat 587, [Char.ofNat 586]),
   (Char.ofNat 589, [Char.ofNat 588]),
   (Char.ofNat 591, [Char.ofNat 590]),
   (Char.ofNat 592, [Char.ofNat 11375]),
   (Char.ofNat 593, [Char.ofNat 11373]),
   (Char.ofNat 594, [Char.ofNat 11376]),
   (Char.ofNat 595, [Char.ofNat 385]),
   (Char.ofNat 596, [Char.ofNat 390]),
   (Char.ofNat 598, [Char.ofNat 393]),
   (Char.ofNat 599, [Char.ofNat 394]),
   (Char.ofNat 601, [Char.ofNat 399]),
   (Char.ofNat 603, [Char.ofNat 400]),
   (Char.ofNat 604, [Char.ofNat 42923]),
   (Char.ofNat 608, [Char.ofNat 403]),
   (Char.ofNat 609, [Char.ofNat 42924]),
   (Char.ofNat 611, [Char.ofNat 404]),
   (Char.ofNat 613, [Char.ofNat 42893]),
   (Char.ofNat 614, [Char.ofNat 42922]),
   (Char.ofNat 616, [Char.ofNat 407]),
   (Char.ofNat 617, [Char.ofNat 406]),
   (Char.ofNat 618, [Char.ofNat 42926]),
   (Char.ofNat 619, [Char.ofNat 11362]),
   (Char.ofNat 620, [Char.ofNat 42925]),
   (Char.ofNat 623, [Char.ofNat 412]),
   (Char.ofNat 625, [Char.ofNat 11374]),
   (Char.ofNat 626, [Char.ofNat 413]),
   (Char.ofNat 629, [Char.ofNat 415]),
   (Char.ofNat 637, [Char.ofNat 11364]),
   (Char.ofNat 640, [Char.ofNat 422]),
   (Char.ofNat 642, [Char.ofNat 42949]),
   (Char.ofNat 643, [Char.ofNat 425]),
   (Char.ofNat 647, [Char.ofNat 42929]),
   (Char.ofNat 648, [Char.ofNat 430]),
   (Char.ofNat 649, [Char.ofNat 580]),
   (Char.ofNat 650, [Char.ofNat 433]),
   (Char.ofNat 651, [Char.ofNat 434]),
   (Char.ofNat 652, [Char.ofNat 581]),
   (Char.ofNat 658, [Char.ofNat 439]),
   (Char.ofNat 669, [Char.ofNat 42930]),
   (Char.ofNat 670, [Char.ofNat 42928]),
   (Char.ofNat 837, [Char.ofNat 921]),
   (Char.ofNat 881, [Char.ofNat 880]),
   (Char.ofNat 883, [Char.ofNat 882]),
   (Char.ofNat 887, [Char.ofNat 886]),
   (Char.ofNat 891, [Char.ofNat 1021]),
   (Char.ofNat 892, [Char.ofNat 1022]),
   (Char.ofNat 893, [Char.ofNat 1023]),
   (Char.ofNat 912, [Char.ofNat 921, Char.ofNat 776, Char.ofNat 769]),
   (Char.ofNat 940, [Char.ofNat 902]),
   (Char.ofNat 941, [Char.ofNat 904]),
   (Char.ofNat 942, [Char.ofNat 905]),
   (Char.ofNat 943, [Char.ofNat 906]),
   (Char.ofNat 944, [Char.ofNat 933, Char.ofNat 776, Char.ofNat 769]),
   (Char.ofNat 945, [Char.ofNat 913]),
   (Char.ofNat 946, [Char.ofNat 914]),
   (Char.ofNat 947, [Char.ofNat 915]),
   (Char.ofNat 948, [Char.ofNat 916]),
   (Char.ofNat 949, [Char.ofNat 917]),
   (Char.ofNat 950, [Char.ofNat 918]),
   (Char.ofNat 951, [Char.ofNat 919]),
   (Char.ofNat 952, [Char.ofNat 920]),
   (Char.ofNat 953, [Char.ofNat 921]),
   (Char.ofNat 954, [Char.ofNat 922]),
   (Char.ofNat 955, [Char.ofNat 923]),
   (Char.ofNat 956, [Char.ofNat 924]),
   (Char.ofNat 957, [Char.ofNat 925]),
   (Char.ofNat 958, [Char.ofNat 926]),
   (Char.ofNat 959, [Char.ofNat 927]),
   (Char.ofNat 960, [Char.ofNat 928]),
   (Char.ofNat 961, [Char.ofNat 929]),
   (Char.ofNat 962, [Char.ofNat 931]),
   (Char.ofNat 963, [Char.ofNat 931]),
   (Char.ofNat 964, [Char.ofNat 932]),
   (Char.ofNat 965, [Char.ofNat 933]),
   (Char.ofNat 966, [Char.ofNat 934]),
   (Char.ofNat 967, [Char.ofNat 935]),
   (Char.ofNat 968, [Char.ofNat 936]),
   (Char.ofNat 969, [Char.ofNat 937]),
   (Char.ofNat 970, [Char.ofNat 938]),
   (Char.ofNat 971, [Char.ofNat 939]),
   (Char.ofNat 972, [Char.ofNat 908]),
   (Char.ofNat 973, [Char.ofNat 910]),
   (Char.ofNat 974, [Char.ofNat 911]),
   (Char.ofNat 976, [Char.ofNat 914]),
   (Char.ofNat 977, [Char.ofNat 920]),
   (Char.ofNat 981, [Char.ofNat 934]),
   (Char.ofNat 982, [Char.ofNat 928]),
   (Char.ofNat 983, [Char.ofNat 975]),
   (Char.ofNat 985, [Char.ofNat 984]),
   (Char.ofNat 987, [Char.ofNat 986]),
   (Char.ofNat 989, [Char.ofNat 988]),
   (Char.ofNat 991, [Char.ofNat 990]),
   (Char.ofNat 993, [Char.ofNat 992]),
   (Char.ofNat 995, [Char.ofNat 994]),
   (Char.ofNat 997, [Char.ofNat 996]),
   (Char.ofNat 999, [Char.ofNat 998]),
   (Char.ofNat 1001, [Char.ofNat 1000]),
   (Char.ofNat 1003, [Char.ofNat 1002]),
   (Char.ofNat 1005, [Char.ofNat 1004]),
   (Char.ofNat 1007, [Char.ofNat 1006]),
   (Char.ofNat 1008, [Char.ofNat 922]),
   (Char.ofNat 1009, [Char.ofNat 929]),
   (Char.ofNat 1010, [Char.ofNat 1017]),
   (Char.ofNat 1011, [Char.ofNat 895]),
   (Char.ofNat 1013, [Char.ofNat 917]),
   (Char.ofNat 1016, [Char.ofNat 1015]),
   (Char.ofNat 1019, [Char.ofNat 1018]),
   (Char.ofNat 1072, [Char.ofNat 1040]),
   (Char.ofNat 1073, [Char.ofNat 1041]),
   (Char.ofNat 1074, [Char.ofNat 1042]),
   (Char.ofNat 1075, [Char.ofNat 1043]),
   (Char.ofNat 1076, [Char.ofNat 1044]),
   (Char.ofNat 1077, [Char.ofNat 1045]),
   (Char.ofNat 1078, [Char.ofNat 1046]),
   (Char.ofNat 1079, [Char.ofNat 1047]),
   (Char.ofNat 1080, [Char.ofNat 1048]),
   (Char.ofNat 1081, [Char.ofNat 1049]),
   (Char.ofNat 1082, [Char.ofNat 1050]),
   (Char.ofNat 1083, [Char.ofNat 1051]),
   (Char.ofNat 1084, [Char.ofNat 1052]),
   (Char.ofNat 1085, [Char.ofNat 1053]),
   (Char.ofNat 1086, [Char.ofNat 1054]),
   (Char.ofNat 1087, [Char.ofNat 1055]),
   (Char.ofNat 1088, [Char.ofNat 1056]),
   (Char.ofNat 1089, [Char.ofNat 1057]),
   (Char.ofNat 1090, [Char.ofNat 1058]),
   (Char.ofNat 1091, [Char.ofNat 1059]),
   (Char.ofNat 1092, [Char.ofNat 1060]),
   (Char.ofNat 1093, [Char.ofNat 1061]),
   (Char.ofNat 1094, [Char.ofNat 1062]),
   (Char.ofNat 1095, [Char.ofNat 1063]),
   (Char.ofNat 1096, [Char.ofNat 1064]),
   (Char.ofNat 1097, [Char.ofNat 1065]),
   (Char.ofNat 1098, [Char.ofNat 1066]),
   (Char.ofNat 1099, [Char.ofNat 1067]),
   (Char.ofNat 1100, [Char.ofNat 1068]),
   (Char.ofNat 1101, [Char.ofNat 1069]),
   (Char.ofNat 1102, [Char.ofNat 1070]),
   (Char.ofNat 1103, [Char.ofNat 1071]),
   (Char.ofNat 1104, [Char.ofNat 1024]),
   (Char.ofNat 1105, [Char.ofNat 1025]),
   (Char.ofNat 1106, [Char.ofNat 1026]),
   (Char.ofNat 1107, [Char.ofNat 1027]),
   (Char.ofNat 1108, [Char.ofNat 1028]),
   (Char.ofNat 1109, [Char.ofNat 1029]),
   (Char.ofNat 1110, [Char.ofNat 1030]),
   (Char.ofNat 1111, [Char.ofNat 1031]),
   (Char.ofNat 1112, [Char.ofNat 1032]),
   (Char.ofNat 1113, [Char.ofNat 1033]),
   (Char.ofNat 1114, [Char.ofNat 1034]),
   (Char.ofNat 1115, [Char.ofNat 1035]),
   (Char.ofNat 1116, [Char.ofNat 1036]),
   (Char.ofNat 1117, [Char.ofNat 1037]),
   (Char.ofNat 1118, [Char.ofNat 1038]),
   (Char.ofNat 1119, [Char.ofNat 1039]),
   (Char.ofNat 1121, [Char.ofNat 1120]),
   (Char.ofNat 1123, [Char.ofNat 1122]),
   (Char.ofNat 1125, [Char.ofNat 1124]),
   (Char.ofNat 1127, [Char.ofNat 1126]),
   (Char.ofNat 1129, [Char.ofNat 1128]),
   (Char.ofNat 1131, [Char.ofNat 1130]),
   (Char.ofNat 1133, [Char.ofNat 1132]),
   (Char.ofNat 1135, [Char.ofNat 1134]),
   (Char.ofNat 1137, [Char.ofNat 1136]),
   (Char.ofNat 1139, [Char.ofNat 1138]),
   (Char.ofNat 1141, [Char.ofNat 1140]),
   (Char.ofNat 1143, [Char.ofNat 1142]),
   (Char.ofNat 1145, [Char.ofNat 1144]),
   (Char.ofNat 1147, [Char.ofNat 1146]),
   (Char.ofNat 1149, [Char.ofNat 1148]),
   (Char.ofNat 1151, [Char.ofNat 1150]),
   (Char.ofNat 1153, [Char.ofNat 1152]),
   (Char.ofNat 1163, [Char.ofNat 1162]),
   (Char.ofNat 1165, [Char.ofNat 1164]),
   (Char.ofNat 1167, [Char.ofNat 1166]),
   (Char.ofNat 1169, [Char.ofNat 1168]),
   (Char.ofNat 1171, [Char.ofNat 1170]),
   (Char.ofNat 1173, [Char.ofNat 1172]),
   (Char.ofNat 1175, [Char.ofNat 1174]),
   (Char.ofNat 1177, [Char.ofNat 1176]),
   (Char.ofNat 1179, [Char.ofNat 1178]),
   (Char.ofNat 1181, [Char.ofNat 1180]),
   (Char.ofNat 1183, [Char.ofNat 1182]),
   (Char.ofNat 1185, [Char.ofNat 1184]),
   (Char.ofNat 1187, [Char.ofNat 1186]),
   (Char.ofNat 1189, [Char.ofNat 1188]),
   (Char.ofNat 1191, [Char.ofNat 1190]),
   (Char.ofNat 1193, [Char.ofNat 1192]),
   (Char.ofNat 1195, [Char.ofNat 1194]),
   (Char.ofNat 1197, [Char.ofNat 1196]),
   (Char.ofNat 1199, [Char.ofNat 1198]),
   (Char.ofNat 1201, [Char.ofNat 1200]),
   (Char.ofNat 1203, [Char.ofNat 1202]),
   (Char.ofNat 1205, [Char.ofNat 1204]),
   (Char.ofNat 1207, [Char.ofNat 1206]),
   (Char.ofNat 1209, [Char.ofNat 1208]),
   (Char.ofNat 1211, [Char.ofNat 1210]),
   (Char.ofNat 1213, [Char.ofNat 1212]),
   (Char.ofNat 1215, [Char.ofNat 1214]),
   (Char.ofNat 1218, [Char.ofNat 1217]),
   (Char.ofNat 1220, [Char.ofNat 1219]),
   (Char.ofNat 1222, [Char.ofNat 1221]),
   (Char.ofNat 1224, [Char.ofNat 1223]),
   (Char.ofNat 1226, [Char.ofNat 1225]),
   (Char.ofNat 1228, [Char.ofNat 1227]),
   (Char.ofNat 1230, [Char.ofNat 1229]),
   (Char.ofNat 1231, [Char.ofNat 1216]),
   (Char.ofNat 1233, [Char.ofNat 1232]),
   (Char.ofNat 1235, [Char.ofNat 1234]),
   (Char.ofNat 1237, [Char.ofNat 1236]),
   (Char.ofNat 1239, [Char.ofNat 1238]),
   (Char.ofNat 1241, [Char.ofNat 1240]),
   (Char.ofNat 1243, [Char.ofNat 1242]),
   (Char.ofNat 1245, [Char.ofNat 1244]),
   (Char.ofNat 1247, [Char.ofNat 1246]),
   (Char.ofNat 1249, [Char.ofNat 1248]),
   (Char.ofNat 1251, [Char.ofNat 1250]),
   (Char.ofNat 1253, [Char.ofNat 1252]),
   (Char.ofNat 1255, [Char.ofNat 1254]),
   (Char.ofNat 1257, [Char.ofNat 1256]),
   (Char.ofNat 1259, [Char.ofNat 1258]),
   (Char.ofNat 1261, [Char.ofNat 1260]),
   (Char.ofNat 1263, [Char.ofNat 1262]),
   (Char.ofNat 1265, [Char.ofNat 1264]),
   (Char.ofNat 1267, [Char.ofNat 1266]),
   (Char.ofNat 1269, [Char.ofNat 1268]),
   (Char.ofNat 1271, [Char.ofNat 1270]),
   (Char.ofNat 1273, [Char.ofNat 1272]),
   (Char.ofNat 1275, [Char.ofNat 1274]),
   (Char.ofNat 1277, [Char.ofNat 1276]),
   (Char.ofNat 1279, [Char.ofNat 1278]),
   (Char.ofNat 1281, [Char.ofNat 1280]),
   (Char.ofNat 1283, [Char.ofNat 1282]),
   (Char.ofNat 1285, [Char.ofNat 1284]),
   (Char.ofNat 1287, [Char.ofNat 1286]),
   (Char.ofNat 1289, [Char.ofNat 1288]),
   (Char.ofNat 1291, [Char.ofNat 1290]),
   (Char.ofNat 1293, [Char.ofNat 1292]),
   (Char.ofNat 1295, [Char.ofNat 1294]),
   (Char.ofNat 1297, [Char.ofNat 1296]),
   (Char.ofNat 1299, [Char.ofNat 1298]),
   (Char.ofNat 1301, [Char.ofNat 1300]),
   (Char.ofNat 1303, [Char.ofNat 1302]),
   (Char.ofNat 1305, [Char.ofNat 1304]),
   (Char.ofNat 1307, [Char.ofNat 1306]),
   (Char.ofNat 1309, [Char.ofNat 1308]),
   (Char.ofNat 1311, [Char.ofNat 1310]),
   (Char.ofNat 1313, [Char.ofNat 1312]),
   (Char.ofNat 1315, [Char.ofNat 1314]),
   (Char.ofNat 1317, [Char.ofNat 1316]),
   (Char.ofNat 1319, [Char.ofNat 1318]),
   (Char.ofNat 1321, [Char.ofNat 1320]),
   (Char.ofNat 1323, [Char.ofNat 1322]),
   (Char.ofNat 1325, [Char.ofNat 1324]),
   (Char.ofNat 1327, [Char.ofNat 1326]),
   (Char.ofNat 1377, [Char.ofNat 1329]),
   (Char.ofNat 1378, [Char.ofNat 1330]),
   (Char.ofNat 1379, [Char.ofNat 1331]),
   (Char.ofNat 1380, [Char.ofNat 1332]),
   (Char.ofNat 1381, [Char.ofNat 1333]),
   (Char.ofNat 1382, [Char.ofNat 1334]),
   (Char.ofNat 1383, [Char.ofNat 1335]),
   (Char.ofNat 1384, [Char.ofNat 1336]),
   (Char.ofNat 1385, [Char.ofNat 1337]),
   (Char.ofNat 1386, [Char.ofNat 1338]),
   (Char.ofNat 1387, [Char.ofNat 1339]),
   (Char.ofNat 1388, [Char.ofNat 1340]),
   (Char.ofNat 1389, [Char.ofNat 1341]),
   (Char.ofNat 1390, [Char.ofNat 1342]),
   (Char.ofNat 1391, [Char.ofNat 1343]),
   (Char.ofNat 1392, [Char.ofNat 1344]),
   (Char.ofNat 1393, [Char.ofNat 1345]),
   (Char.ofNat 1394, [Char.ofNat 1346]),
   (Char.ofNat 1395, [Char.ofNat 1347]),
   (Char.ofNat 1396, [Char.ofNat 1348]),
   (Char.ofNat 1397, [Char.ofNat 1349]),
   (Char.ofNat 1398, [Char.ofNat 1350]),
   (Char.ofNat 1399, [Char.ofNat 1351]),
   (Char.ofNat 1400, [Char.ofNat 1352]),
   (Char.ofNat 1401, [Char.ofNat 1353]),
   (Char.ofNat 1402, [Char.ofNat 1354]),
   (Char.ofNat 1403, [Char.ofNat 1355]),
   (Char.ofNat 1404, [Char.ofNat 1356]),
   (Char.ofNat 1405, [Char.ofNat 1357]),
   (Char.ofNat 1406, [Char.ofNat 1358]),
   (Char.ofNat 1407, [Char.ofNat 1359]),
   (Char.ofNat 1408, [Char.ofNat 1360]),
   (Char.ofNat 1409, [Char.ofNat 1361]),
   (Char.ofNat 1410, [Char.ofNat 1362]),
   (Char.ofNat 1411, [Char.ofNat 1363]),
   (Char.ofNat 1412, [Char.ofNat 1364]),
   (Char.ofNat 1413, [Char.ofNat 1365]),
   (Char.ofNat 1414, [Char.ofNat 1366]),
   (Char.ofNat 1415, [Char.ofNat 1333, Char.ofNat 1362]),
   (Char.ofNat 4304, [Char.ofNat 7312]),
   (Char.ofNat 4305, [Char.ofNat 7313]),
   (Char.ofNat 4306, [Char.ofNat 7314]),
   (Char.ofNat 4307, [Char.ofNat 7315]),
   (Char.ofNat 4308, [Char.ofNat 7316]),
   (Char.ofNat 4309, [Char.ofNat 7317]),
   (Char.ofNat 4310, [Char.ofNat 7318]),
   (Char.ofNat 4311, [Char.ofNat 7319]),
   (Char.ofNat 4312, [Char.ofNat 7320]),
   (Char.ofNat 4313, [Char.ofNat 7321]),
   (Char.ofNat 4314, [Char.ofNat 7322]),
   (Char.ofNat 4315, [Char.ofNat 7323]),
   (Char.ofNat 4316, [Char.ofNat 7324]),
   (Char.ofNat 4317, [Char.ofNat 7325]),
   (Char.ofNat 4318, [Char.ofNat 7326]),
   (Char.ofNat 4319, [Char.ofNat 7327]),
   (Char.ofNat 4320, [Char.ofNat 7328]),
   (Char.ofNat 4321, [Char.ofNat 7329]),
   (Char.ofNat 4322, [Char.ofNat 7330]),
   (Char.ofNat 4323, [Char.ofNat 7331]),
   (Char.ofNat 4324, [Char.ofNat 7332]),
   (Char.ofNat 4325, [Char.ofNat 7333]),
   (Char.ofNat 4326, [Char.ofNat 7334]),
   (Char.ofNat 4327, [Char.ofNat 7335]),
   (Char.ofNat 4328, [Char.ofNat 7336]),
   (Char.ofNat 4329, [Char.ofNat 7337]),
   (Char.ofNat 4330, [Char.ofNat 7338]),
   (Char.ofNat 4331, [Char.ofNat 7339]),
   (Char.ofNat 4332, [Char.ofNat 7340]),
   (Char.ofNat 4333, [Char.ofNat 7341]),
   (Char.ofNat 4334, [Char.ofNat 7342]),
   (Char.ofNat 4335, [Char.ofNat 7343]),
   (Char.ofNat 4336, [Char.ofNat 7344]),
   (Char.ofNat 4337, [Char.ofNat 7345]),
   (Char.ofNat 4338, [Char.ofNat 7346]),
   (Char.ofNat 4339, [Char.ofNat 7347]),
   (Char.ofNat 4340, [Char.ofNat 7348]),
   (Char.ofNat 4341, [Char.ofNat 7349]),
   (Char.ofNat 4342, [Char.ofNat 7350]),
   (Char.ofNat 4343, [Char.ofNat 7351]),
   (Char.ofNat 4344, [Char.ofNat 7352]),
   (Char.ofNat 4345, [Char.ofNat 7353]),
   (Char.ofNat 4346, [Char.ofNat 7354]),
   (Char.ofNat 4349, [Char.ofNat 7357]),
   (Char.ofNat 4350, [Char.ofNat 7358]),
   (Char.ofNat 4351, [Char.ofNat 7359]),
   (Char.ofNat 5112, [Char.ofNat 5104]),
   (Char.ofNat 5113, [Char.ofNat 5105]),
   (Char.ofNat 5114, [Char.ofNat 5106]),
   (Char.ofNat 5115, [Char.ofNat 5107]),
   (Char.ofNat 5116, [Char.ofNat 5108]),
   (Char.ofNat 5117, [Char.ofNat 5109]),
   (Char.ofNat 7296, [Char.ofNat 1042]),
   (Char.ofNat 7297, [Char.ofNat 1044]),
   (Char.ofNat 7298, [Char.ofNat 1054]),
   (Char.ofNat 7299, [Char.ofNat 1057]),
   (Char.ofNat 7300, [Char.ofNat 1058]),
   (Char.ofNat 7301, [Char.ofNat 1058]),
   (Char.ofNat 7302, [Char.ofNat 1066]),
   (Char.ofNat 7303, [Char.ofNat 1122]),
   (Char.ofNat 7304, [Char.ofNat 42570]),
   (Char.ofNat 7545, [Char.ofNat 42877]),
   (Char.ofNat 7549, [Char.ofNat 11363]),
   (Char.ofNat 7566, [Char.ofNat 42950]),
   (Char.ofNat 7681, [Char.ofNat 7680]),
   (Char.ofNat 7683, [Char.ofNat 7682]),
   (Char.ofNat 7685, [Char.ofNat 7684]),
   (Char.ofNat 7687, [Char.ofNat 7686]),
   (Char.ofNat 7689, [Char.ofNat 7688]),
   (Char.ofNat 7691, [Char.ofNat 7690]),
   (Char.ofNat 7693, [Char.ofNat 7692]),
   (Char.ofNat 7695, [Char.ofNat 7694]),
   (Char.ofNat 7697, [Char.ofNat 7696]),
   (Char.ofNat 7699, [Char.ofNat 7698]),
   (Char.ofNat 7701, [Char.ofNat 7700]),
   (Char.ofNat 7703, [Char.ofNat 7702]),
   (Char.ofNat 7705, [Char.ofNat 7704]),
   (Char.ofNat 7707, [Char.ofNat 7706]),
   (Char.ofNat 7709, [Char.ofNat 7708]),
   (Char.ofNat 7711, [Char.ofNat 7710]),
   (Char.ofNat 7713, [Char.ofNat 7712]),
   (Char.ofNat 7715, [Char.ofNat 7714]),
   (Char.ofNat 7717, [Char.ofNat 7716]),
   (Char.ofNat 7719, [Char.ofNat 7718]),
   (Char.ofNat 7721, [Char.ofNat 7720]),
   (Char.ofNat 7723, [Char.ofNat 7722]),
   (Char.ofNat 7725, [Char.ofNat 7724]),
   (Char.ofNat 7727, [Char.ofNat 7726]),
   (Char.ofNat 7729, [Char.ofNat 7728]),
   (Char.ofNat 7731, [Char.ofNat 7730]),
   (Char.ofNat 7733, [Char.ofNat 7732]),
   (Char.ofNat 7735, [Char.ofNat 7734]),
   (Char.ofNat 7737, [Char.ofNat 7736]),
   (Char.ofNat 7739, [Char.ofNat 7738]),
   (Char.ofNat 7741, [Char.ofNat 7740]),
   (Char.ofNat 7743, [Char.ofNat 7742]),
   (Char.ofNat 7745, [Char.ofNat 7744]),
   (Char.ofNat 7747, [Char.ofNat 7746]),
   (Char.ofNat 7749, [Char.ofNat 7748]),
   (Char.ofNat 7751, [Char.ofNat 7750]),
   (Char.ofNat 7753, [Char.ofNat 7752]),
   (Char.ofNat 7755, [Char.ofNat 7754]),
   (Char.ofNat 7757, [Char.ofNat 7756]),
   (Char.ofNat 7759, [Char.ofNat 7758]),
   (Char.ofNat 7761, [Char.ofNat 7760]),
   (Char.ofNat 7763, [Char.ofNat 7762]),
   (Char.ofNat 7765, [Char.ofNat 7764]),
   (Char.ofNat 7767, [Char.ofNat 7766]),
   (Char.ofNat 7769, [Char.ofNat 7768]),
   (Char.ofNat 7771, [Char.ofNat 7770]),
   (Char.ofNat 7773, [Char.ofNat 7772]),
   (Char.ofNat 7775, [Char.ofNat 7774]),
   (Char.ofNat 7777, [Char.ofNat 7776]),
   (Char.ofNat 7779, [Char.ofNat 7778]),
   (Char.ofNat 7781, [Char.ofNat 7780]),
   (Char.ofNat 7783, [Char.ofNat 7782]),
   (Char.ofNat 7785, [Char.ofNat 7784]),
   (Char.ofNat 7787, [Char.ofNat 7786]),
   (Char.ofNat 7789, [Char.ofNat 7788]),
   (Char.ofNat 7791, [Char.ofNat 7790]),
   (Char.ofNat 7793, [Char.ofNat 7792]),
   (Char.ofNat 7795, [Char.ofNat 7794]),
   (Char.ofNat 7797, [Char.ofNat 7796]),
   (Char.ofNat 7799, [Char.ofNat 7798]),
   (Char.ofNat 7801, [Char.ofNat 7800]),
   (Char.ofNat 7803, [Char.ofNat 7802]),
   (Char.ofNat 7805, [Char.ofNat 7804]),
   (Char.ofNat 7807, [Char.ofNat 7806]),
   (Char.ofNat 7809, [Char.ofNat 7808]),
   (Char.ofNat 7811, [Char.ofNat 7810]),
   (Char.ofNat 7813, [Char.ofNat 7812]),
   (Char.ofNat 7815, [Char.ofNat 7814]),
   (Char.ofNat 7817, [Char.ofNat 7816]),
   (Char.ofNat 7819, [Char.ofNat 7818]),
   (Char.ofNat 7821, [Char.ofNat 7820]),
   (Char.ofNat 7823, [Char.ofNat 7822]),
   (Char.ofNat 7825, [Char.ofNat 7824]),
   (Char.ofNat 7827, [Char.ofNat 7826]),
   (Char.ofNat 7829, [Char.ofNat 7828]),
   (Char.ofNat 7830, [Char.ofNat 72, Char.ofNat 817]),
   (Char.ofNat 7831, [Char.ofNat 84, Char.ofNat 776]),
   (Char.ofNat 7832, [Char.ofNat 87, Char.ofNat 778]),
   (Char.ofNat 7833, [Char.ofNat 89, Char.ofNat 778]),
   (Char.ofNat 7834, [Char.ofNat 65, Char.ofNat 702]),
   (Char.ofNat 7835, [Char.ofNat 7776]),
   (Char.ofNat 7841, [Char.ofNat 7840]),
   (Char.ofNat 7843, [Char.ofNat 7842]),
   (Char.ofNat 7845, [Char.ofNat 7844]),
   (Char.ofNat 7847, [Char.ofNat 7846]),
   (Char.ofNat 7849, [Char.ofNat 7848]),
   (Char.ofNat 7851, [Char.ofNat 7850]),
   (Char.ofNat 7853, [Char.ofNat 7852]),
   (Char.ofNat 7855, [Char.ofNat 7854]),
   (Char.ofNat 7857, [Char.ofNat 7856]),
   (Char.ofNat 7859, [Char.ofNat 7858]),
   (Char.ofNat 7861, [Char.ofNat 7860]),
   (Char.ofNat 7863, [Char.ofNat 7862]),
   (Char.ofNat 7865, [Char.ofNat 7864]),
   (Char.ofNat 7867, [Char.ofNat 7866]),
   (Char.ofNat 7869, [Char.ofNat 7868]),
   (Char.ofNat 7871, [Char.ofNat 7870]),
   (Char.ofNat 7873, [Char.ofNat 7872]),
   (Char.ofNat 7875, [Char.ofNat 7874]),
   (Char.ofNat 7877, [Char.ofNat 7876]),
   (Char.ofNat 7879, [Char.ofNat 7878]),
   (Char.ofNat 7881, [Char.ofNat 7880]),
   (Char.ofNat 7883, [Char.ofNat 7882]),
   (Char.ofNat 7885, [Char.ofNat 7884]),
   (Char.ofNat 7887, [Char.ofNat 7886]),
   (Char.ofNat 7889, [Char.ofNat 7888]),
   (Char.ofNat 7891, [Char.ofNat 7890]),
   (Char.ofNat 7893, [Char.ofNat 7892]),
   (Char.ofNat 7895, [Char.ofNat 7894]),
   (Char.ofNat 7897, [Char.ofNat 7896]),
   (Char.ofNat 7899, [Char.ofNat 7898]),
   (Char.ofNat 7901, [Char.ofNat 7900]),
   (Char.ofNat 7903, [Char.ofNat 7902]),
   (Char.ofNat 7905, [Char.ofNat 7904]),
   (Char.ofNat 7907, [Char.ofNat 7906]),
   (Char.ofNat 7909, [Char.ofNat 7908]),
   (Char.ofNat 7911, [Char.ofNat 7910]),
   (Char.ofNat 7913, [Char.ofNat 7912]),
   (Char.ofNat 7915, [Char.ofNat 7914]),
   (Char.ofNat 7917, [Char.ofNat 7916]),
   (Char.ofNat 7919, [Char.ofNat 7918]),
   (Char.ofNat 7921, [Char.ofNat 7920]),
   (Char.ofNat 7923, [Char.ofNat 7922]),
   (Char.ofNat 7925, [Char.ofNat 7924]),
   (Char.ofNat 7927, [Char.ofNat 7926]),
   (Char.ofNat 7929, [Char.ofNat 7928]),
   (Char.ofNat 7931, [Char.ofNat 7930]),
   (Char.ofNat 7933, [Char.ofNat 7932]),
   (Char.ofNat 7935, [Char.ofNat 7934]),
   (Char.ofNat 7936, [Char.ofNat 7944]),
   (Char.ofNat 7937, [Char.ofNat 7945]),
   (Char.ofNat 7938, [Char.ofNat 7946]),
   (Char.ofNat 7939, [Char.ofNat 7947]),
   (Char.ofNat 7940, [Char.ofNat 7948]),
   (Char.ofNat 7941, [Char.ofNat 7949]),
   (Char.ofNat 7942, [Char.ofNat 7950]),
   (Char.ofNat 7943, [Char.ofNat 7951]),
   (Char.ofNat 7952, [Char.ofNat 7960]),
   (Char.ofNat 7953, [Char.ofNat 7961]),
   (Char.ofNat 7954, [Char.ofNat 7962]),
   (Char.ofNat 7955, [Char.ofNat 7963]),
   (Char.ofNat 7956, [Char.ofNat 7964]),
   (Char.ofNat 7957, [Char.ofNat 7965]),
   (Char.ofNat 7968, [Char.ofNat 7976]),
   (Char.ofNat 7969, [Char.ofNat 7977]),
   (Char.ofNat 7970, [Char.ofNat 7978]),
   (Char.ofNat 7971, [Char.ofNat 7979]),
   (Char.ofNat 7972, [Char.ofNat 7980]),
   (Char.ofNat 7973, [Char.ofNat 7981]),
   (Char.ofNat 7974, [Char.ofNat 7982]),
   (Char.ofNat 7975, [Char.ofNat 7983]),
   (Char.ofNat 7984, [Char.ofNat 7992]),
   (Char.ofNat 7985, [Char.ofNat 7993]),
   (Char.ofNat 7986, [Char.ofNat 7994]),
   (Char.ofNat 7987, [Char.ofNat 7995]),
   (Char.ofNat 7988, [Char.ofNat 7996]),
   (Char.ofNat 7989, [Char.ofNat 7997]),
   (Char.ofNat 7990, [Char.ofNat 7998]),
   (Char.ofNat 7991, [Char.ofNat 7999]),
   (Char.ofNat 8000, [Char.ofNat 8008]),
   (Char.ofNat 8001, [Char.ofNat 8009]),
   (Char.ofNat 8002, [Char.ofNat 8010]),
   (Char.ofNat 8003, [Char.ofNat 8011]),
   (Char.ofNat 8004, [Char.ofNat 8012]),
   (Char.ofNat 8005, [Char.ofNat 8013]),
   (Char.ofNat 8016, [Char.ofNat 933, Char.ofNat 787]),
   (Char.ofNat 8017, [Char.ofNat 8025]),
   (Char.ofNat 8018, [Char.ofNat 933, Char.ofNat 787, Char.ofNat 768]),
   (Char.ofNat 8019, [Char.ofNat 8027]),
   (Char.ofNat 8020, [Char.ofNat 933, Char.ofNat 787, Char.ofNat 769]),
   (Char.ofNat 8021, [Char.ofNat 8029]),
   (Char.ofNat 8022, [Char.ofNat 933, Char.ofNat 787, Char.ofNat 834]),
   (Char.ofNat 8023, [Char.ofNat 8031]),
   (Char.ofNat 8032, [Char.ofNat 8040]),
   (Char.ofNat 8033, [Char.ofNat 8041]),
   (Char.ofNat 8034, [Char.ofNat 8042]),
   (Char.ofNat 8035, [Char.ofNat 8043]),
   (Char.ofNat 8036, [Char.ofNat 8044]),
   (Char.ofNat 8037, [Char.ofNat 8045]),
   (Char.ofNat 8038, [Char.ofNat 8046]),
   (Char.ofNat 8039, [Char.ofNat 8047]),
   (Char.ofNat 8048, [Char.ofNat 8122]),
   (Char.ofNat 8049, [Char.ofNat 8123]),
   (Char.ofNat 8050, [Char.ofNat 8136]),
   (Char.ofNat 8051, [Char.ofNat 8137]),
   (Char.ofNat 8052, [Char.ofNat 8138]),
   (Char.ofNat 8053, [Char.ofNat 8139]),
   (Char.ofNat 8054, [Char.ofNat 8154]),
   (Char.ofNat 8055, [Char.ofNat 8155]),
   (Char.ofNat 8056, [Char.ofNat 8184]),
   (Char.ofNat 8057, [Char.ofNat 8185]),
   (Char.ofNat 8058, [Char.ofNat 8170]),
   (Char.ofNat 8059, [Char.ofNat 8171]),
   (Char.ofNat 8060, [Char.ofNat 8186]),
   (Char.ofNat 8061, [Char.ofNat 8187]),
   (Char.ofNat 8064, [Char.ofNat 7944, Char.ofNat 921]),
   (Char.ofNat 8065, [Char.ofNat 7945, Char.ofNat 921]),
   (Char.ofNat 8066, [Char.ofNat 7946, Char.ofNat 921]),
   (Char.ofNat 8067, [Char.ofNat 7947, Char.ofNat 921]),
   (Char.ofNat 8068, [Char.ofNat 7948, Char.ofNat 921]),
   (Char.ofNat 8069, [Char.ofNat 7949, Char.ofNat 921]),
   (Char.ofNat 8070, [Char.ofNat 7950, Char.ofNat 921]),
   (Char.ofNat 8071, [Char.ofNat 7951, Char.ofNat 921]),
   (Char.ofNat 8072, [Char.ofNat 7944, Char.ofNat 921]),
   (Char.ofNat 8073, [Char.ofNat 7945, Char.ofNat 921]),
   (Char.ofNat 8074, [Char.ofNat 7946, Char.ofNat 921]),
   (Char.ofNat 8075, [Char.ofNat 7947, Char.ofNat 921]),
   (Char.ofNat 8076, [Char.ofNat 7948, Char.ofNat 921]),
   (Char.ofNat 8077, [Char.ofNat 7949, Char.ofNat 921]),
   (Char.ofNat 8078, [Char.ofNat 7950, Char.ofNat 921]),
   (Char.ofNat 8079, [Char.ofNat 7951, Char.ofNat 921]),
   (Char.ofNat 8080, [Char.ofNat 7976, Char.ofNat 921]),
   (Char.ofNat 8081, [Char.ofNat 7977, Char.ofNat 921]),
   (Char.ofNat 8082, [Char.ofNat 7978, Char.ofNat 921]),
   (Char.ofNat 8083, [Char.ofNat 7979, Char.ofNat 921]),
   (Char.ofNat 8084, [Char.ofNat 7980, Char.ofNat 921]),
   (Char.ofNat 8085, [Char.ofNat 7981, Char.ofNat 921]),
   (Char.ofNat 8086, [Char.ofNat 7982, Char.ofNat 921]),
   (Char.ofNat 8087, [Char.ofNat 7983, Char.ofNat 921]),
   (Char.ofNat 8088, [Char.ofNat 7976, Char.ofNat 921]),
   (Char.ofNat 8089, [Char.ofNat 7977, Char.ofNat 921]),
   (Char.ofNat 8090, [Char.ofNat 7978, Char.ofNat 921]),
   (Char.ofNat 8091, [Char.ofNat 7979, Char.ofNat 921]),
   (Char.ofNat 8092, [Char.ofNat 7980, Char.ofNat 921]),
   (Char.ofNat 8093, [Char.ofNat 7981, Char.ofNat 921]),
   (Char.ofNat 8094, [Char.ofNat 7982, Char.ofNat 921]),
   (Char.ofNat 8095, [Char.ofNat 7983, Char.ofNat 921]),
   (Char.ofNat 8096, [Char.ofNat 8040, Char.ofNat 921]),
   (Char.ofNat 8097, [Char.ofNat 8041, Char.ofNat 921]),
   (Char.ofNat 8098, [Char.ofNat 8042, Char.ofNat 921]),
   (Char.ofNat 8099, [Char.ofNat 8043, Char.ofNat 921]),
   (Char.ofNat 8100, [Char.ofNat 8044, Char.ofNat 921]),
   (Char.ofNat 8101, [Char.ofNat 8045, Char.ofNat 921]),
   (Char.ofNat 8102, [Char.ofNat 8046, Char.ofNat 921]),
   (Char.ofNat 8103, [Char.ofNat 8047, Char.ofNat 921]),
   (Char.ofNat 8104, [Char.ofNat 8040, Char.ofNat 921]),
   (Char.ofNat 8105, [Char.ofNat 8041, Char.ofNat 921]),
   (Char.ofNat 8106, [Char.ofNat 8042, Char.ofNat 921]),
   (Char.ofNat 8107, [Char.ofNat 8043, Char.ofNat 921]),
   (Char.ofNat 8108, [Char.ofNat 8044, Char.ofNat 921]),
   (Char.ofNat 8109, [Char.ofNat 8045, Char.ofNat 921]),
   (Char.ofNat 8110, [Char.ofNat 8046, Char.ofNat 921]),
   (Char.ofNat 8111, [Char.ofNat 8047, Char.ofNat 921]),
   (Char.ofNat 8112, [Char.ofNat 8120]),
   (Char.ofNat 8113, [Char.ofNat 8121]),
   (Char.ofNat 8114, [Char.ofNat 8122, Char.ofNat 921]),
   (Char.ofNat 8115, [Char.ofNat 913, Char.ofNat 921]),
   (Char.ofNat 8116, [Char.ofNat 902, Char.ofNat 921]),
   (Char.ofNat 8118, [Char.ofNat 913, Char.ofNat 834]),
   (Char.ofNat 8119, [Char.ofNat 913, Char.ofNat 834, Char.ofNat 921]),
   (Char.ofNat 8124, [Char.ofNat 913, Char.ofNat 921]),
   (Char.ofNat 8126, [Char.ofNat 921]),
   (Char.ofNat 8130, [Char.ofNat 8138, Char.ofNat 921]),
   (Char.ofNat 8131, [Char.ofNat 919, Char.ofNat 921]),
   (Char.ofNat 8132, [Char.ofNat 905, Char.ofNat 921]),
   (Char.ofNat 8134, [Char.ofNat 919, Char.ofNat 834]),
   (Char.ofNat 8135, [Char.ofNat 919, Char.ofNat 834, Char.ofNat 921]),
   (Char.ofNat 8140, [Char.ofNat 919, Char.ofNat 921]),
   (Char.ofNat 8144, [Char.ofNat 8152]),
   (Char.ofNat 8145, [Char.ofNat 8153]),
   (Char.ofNat 8146, [Char.ofNat 921, Char.ofNat 776, Char.ofNat 768]),
   (Char.ofNat 8147, [Char.ofNat 921, Char.ofNat 776, Char.ofNat 769]),
   (Char.ofNat 8150, [Char.ofNat 921, Char.ofNat 834]),
   (Char.ofNat 8151, [Char.ofNat 921, Char.ofNat 776, Char.ofNat 834]),
   (Char.ofNat 8160, [Char.ofNat 8168]),
   (Char.ofNat 8161, [Char.ofNat 8169]),
   (Char.ofNat 8162, [Char.ofNat 933, Char.ofNat 776, Char.ofNat 768]),
   (Char.ofNat 8163, [Char.ofNat 933, Char.ofNat 776, Char.ofNat 769]),
   (Char.ofNat 8164, [Char.ofNat 929, Char.ofNat 787]),
   (Char.ofNat 8165, [Char.ofNat 8172]),
   (Char.ofNat 8166, [Char.ofNat 933, Char.ofNat 834]),
   (Char.ofNat 8167, [Char.ofNat 933, Char.ofNat 776, Char.ofNat 834]),
   (Char.ofNat 8178, [Char.ofNat 8186, Char.ofNat 921]),
   (Char.ofNat 8179, [Char.ofNat 937, Char.ofNat 921]),
   (Char.ofNat 8180, [Char.ofNat 911, Char.ofNat 921]),
   (Char.ofNat 8182, [Char.ofNat 937, Char.ofNat 834]),
   (Char.ofNat 8183, [Char.ofNat 937, Char.ofNat 834, Char.ofNat 921]),
   (Char.ofNat 8188, [Char.ofNat 937, Char.ofNat 921]),
   (Char.ofNat 8526, [Char.ofNat 8498]),
   (Char.ofNat 8560, [Char.ofNat 8544]),
   (Char.ofNat 8561, [Char.ofNat 8545]),
   (Char.ofNat 8562, [Char.ofNat 8546]),
   (Char.ofNat 8563, [Char.ofNat 8547]),
   (Char.ofNat 8564, [Char.ofNat 8548]),
   (Char.ofNat 8565, [Char.ofNat 8549]),
   (Char.ofNat 8566, [Char.ofNat 8550]),
   (Char.ofNat 8567, [Char.ofNat 8551]),
   (Char.ofNat 8568, [Char.ofNat 8552]),
   (Char.ofNat 8569, [Char.ofNat 8553]),
   (Char.ofNat 8570, [Char.ofNat 8554]),
   (Char.ofNat 8571, [Char.ofNat 8555]),
   (Char.ofNat 8572, [Char.ofNat 8556]),
   (Char.ofNat 8573, [Char.ofNat 8557]),
   (Char.ofNat 8574, [Char.ofNat 8558]),
   (Char.ofNat 8575, [Char.ofNat 8559]),
   (Char.ofNat 8580, [Char.ofNat 8579]),
   (Char.ofNat 9424, [Char.ofNat 9398]),
   (Char.ofNat 9425, [Char.ofNat 9399]),
   (Char.ofNat 9426, [Char.ofNat 9400]),
   (Char.ofNat 9427, [Char.ofNat 9401]),
   (Char.ofNat 9428, [Char.ofNat 9402]),
   (Char.ofNat 9429, [Char.ofNat 9403]),
   (Char.ofNat 9430, [Char.ofNat 9404]),
   (Char.ofNat 9431, [Char.ofNat 9405]),
   (Char.ofNat 9432, [Char.ofNat 9406]),
   (Char.ofNat 9433, [Char.ofNat 9407]),
   (Char.ofNat 9434, [Char.ofNat 9408]),
   (Char.ofNat 9435, [Char.ofNat 9409]),
   (Char.ofNat 9436, [Char.ofNat 9410]),
   (Char.ofNat 9437, [Char.ofNat 9411]),
   (Char.ofNat 9438, [Char.ofNat 9412]),
   (Char.ofNat 9439, [Char.ofNat 9413]),
   (Char.ofNat 9440, [Char.ofNat 9414]),
   (Char.ofNat 9441, [Char.ofNat 9415]),
   (Char.ofNat 9442, [Char.ofNat 9416]),
   (Char.ofNat 9443, [Char.ofNat 9417]),
   (Char.ofNat 9444, [Char.ofNat 9418]),
   (Char.ofNat 9445, [Char.ofNat 9419]),
   (Char.ofNat 9446, [Char.ofNat 9420]),
   (Char.ofNat 9447, [Char.ofNat 9421]),
   (Char.ofNat 9448, [Char.ofNat 9422]),
   (Char.ofNat 9449, [Char.ofNat 9423]),
   (Char.ofNat 11312, [Char.ofNat 11264]),
   (Char.ofNat 11313, [Char.ofNat 11265]),
   (Char.ofNat 11314, [Char.ofNat 11266]),
   (Char.ofNat 11315, [Char.ofNat 11267]),
   (Char.ofNat 11316, [Char.ofNat 11268]),
   (Char.ofNat 11317, [Char.ofNat 11269]),
   (Char.ofNat 11318, [Char.ofNat 11270]),
   (Char.ofNat 11319, [Char.ofNat 11271]),
   (Char.ofNat 11320, [Char.ofNat 11272]),
   (Char.ofNat 11321, [Char.ofNat 11273]),
   (Char.ofNat 11322, [Char.ofNat 11274]),
   (Char.ofNat 11323, [Char.ofNat 11275]),
   (Char.ofNat 11324, [Char.ofNat 11276]),
   (Char.ofNat 11325, [Char.ofNat 11277]),
   (Char.ofNat 11326, [Char.ofNat 11278]),
   (Char.ofNat 11327, [Char.ofNat 11279]),
   (Char.ofNat 11328, [Char.ofNat 11280]),
   (Char.ofNat 11329, [Char.ofNat 11281]),
   (Char.ofNat 11330, [Char.ofNat 11282]),
   (Char.ofNat 11331, [Char.ofNat 11283]),
   (Char.ofNat 11332, [Char.ofNat 11284]),
   (Char.ofNat 11333, [Char.ofNat 11285]),
   (Char.ofNat 11334, [Char.ofNat 11286]),
   (Char.ofNat 11335, [Char.ofNat 11287]),
   (Char.ofNat 11336, [Char.ofNat 11288]),
   (Char.ofNat 11337, [Char.ofNat 11289]),
   (Char.ofNat 11338, [Char.ofNat 11290]),
   (Char.ofNat 11339, [Char.ofNat 11291]),
   (Char.ofNat 11340, [Char.ofNat 11292]),
   (Char.ofNat 11341, [Char.ofNat 11293]),
   (Char.ofNat 11342, [Char.ofNat 11294]),
   (Char.ofNat 11343, [Char.ofNat 11295]),
   (Char.ofNat 11344, [Char.ofNat 11296]),
   (Char.ofNat 11345, [Char.ofNat 11297]),
   (Char.ofNat 11346, [Char.ofNat 11298]),
   (Char.ofNat 11347, [Char.ofNat 11299]),
   (Char.ofNat 11348, [Char.ofNat 11300]),
   (Char.ofNat 11349, [Char.ofNat 11301]),
   (Char.ofNat 11350, [Char.ofNat 11302]),
   (Char.ofNat 11351, [Char.ofNat 11303]),
   (Char.ofNat 11352, [Char.ofNat 11304]),
   (Char.ofNat 11353, [Char.ofNat 11305]),
   (Char.ofNat 11354, [Char.ofNat 11306]),
   (Char.ofNat 11355, [Char.ofNat 11307]),
   (Char.ofNat 11356, [Char.ofNat 11308]),
   (Char.ofNat 11357, [Char.ofNat 11309]),
   (Char.ofNat 11358, [Char.ofNat 11310]),
   (Char.ofNat 11359, [Char.ofNat 11311]),
   (Char.ofNat 11361, [Char.ofNat 11360]),
   (Char.ofNat 11365, [Char.ofNat 570]),
   (Char.ofNat 11366, [Char.ofNat 574]),
   (Char.ofNat 11368, [Char.ofNat 11367]),
   (Char.ofNat 11370, [Char.ofNat 11369]),
   (Char.ofNat 11372, [Char.ofNat 11371]),
   (Char.ofNat 11379, [Char.ofNat 11378]),
   (Char.ofNat 11382, [Char.ofNat 11381]),
   (Char.ofNat 11393, [Char.ofNat 11392]),
   (Char.ofNat 11395, [Char.ofNat 11394]),
   (Char.ofNat 11397, [Char.ofNat 11396]),
   (Char.ofNat 11399, [Char.ofNat 11398]),
   (Char.ofNat 11401, [Char.ofNat 11400]),
   (Char.ofNat 11403, [Char.ofNat 11402]),
   (Char.ofNat 11405, [Char.ofNat 11404]),
   (Char.ofNat 11407, [Char.ofNat 11406]),
   (Char.ofNat 11409, [Char.ofNat 11408]),
   (Char.ofNat 11411, [Char.ofNat 11410]),
   (Char.ofNat 11413, [Char.ofNat 11412]),
   (Char.ofNat 11415, [Char.ofNat 11414]),
   (Char.ofNat 11417, [Char.ofNat 11416]),
   (Char.ofNat 11419, [Char.ofNat 11418]),
   (Char.ofNat 11421, [Char.ofNat 11420]),
   (Char.ofNat 11423, [Char.ofNat 11422]),
   (Char.ofNat 11425, [Char.ofNat 11424]),
   (Char.ofNat 11427, [Char.ofNat 11426]),
   (Char.ofNat 11429, [Char.ofNat 11428]),
   (Char.ofNat 11431, [Char.ofNat 11430]),
   (Char.ofNat 11433, [Char.ofNat 11432]),
   (Char.ofNat 11435, [Char.ofNat 11434]),
   (Char.ofNat 11437, [Char.ofNat 11436]),
   (Char.ofNat 11439, [Char.ofNat 11438]),
   (Char.ofNat 11441, [Char.ofNat 11440]),
   (Char.ofNat 11443, [Char.ofNat 11442]),
   (Char.ofNat 11445, [Char.ofNat 11444]),
   (Char.ofNat 11447, [Char.ofNat 11446]),
   (Char.ofNat 11449, [Char.ofNat 11448]),
   (Char.ofNat 11451, [Char.ofNat 11450]),
   (Char.ofNat 11453, [Char.ofNat 11452]),
   (Char.ofNat 11455, [Char.ofNat 11454]),
   (Char.ofNat 11457, [Char.ofNat 11456]),
   (Char.ofNat 11459, [Char.ofNat 11458]),
   (Char.ofNat 11461, [Char.ofNat 11460]),
   (Char.ofNat 11463, [Char.ofNat 11462]),
   (Char.ofNat 11465, [Char.ofNat 11464]),
   (Char.ofNat 11467, [Char.ofNat 11466]),
   (Char.ofNat 11469, [Char.ofNat 11468]),
   (Char.ofNat 11471, [Char.ofNat 11470]),
   (Char.ofNat 11473, [Char.ofNat 11472]),
   (Char.ofNat 11475, [Char.ofNat 11474]),
   (Char.ofNat 11477, [Char.ofNat 11476]),
   (Char.ofNat 11479, [Char.ofNat 11478]),
   (Char.ofNat 11481, [Char.ofNat 11480]),
   (Char.ofNat 11483, [Char.ofNat 11482]),
   (Char.ofNat 11485, [Char.ofNat 11484]),
   (Char.ofNat 11487, [Char.ofNat 11486]),
   (Char.ofNat 11489, [Char.ofNat 11488]),
   (Char.ofNat 11491, [Char.ofNat 11490]),
   (Char.ofNat 11500, [Char.ofNat 11499]),
   (Char.ofNat 11502, [Char.ofNat 11501]),
   (Char.ofNat 11507, [Char.ofNat 11506]),
   (Char.ofNat 11520, [Char.ofNat 4256]),
   (Char.ofNat 11521, [Char.ofNat 4257]),
   (Char.ofNat 11522, [Char.ofNat 4258]),
   (Char.ofNat 11523, [Char.ofNat 4259]),
   (Char.ofNat 11524, [Char.ofNat 4260]),
   (Char.ofNat 11525, [Char.ofNat 4261]),
   (Char.ofNat 11526, [Char.ofNat 4262]),
   (Char.ofNat 11527, [Char.ofNat 4263]),
   (Char.ofNat 11528, [Char.ofNat 4264]),
   (Char.ofNat 11529, [Char.ofNat 4265]),
   (Char.ofNat 11530, [Char.ofNat 4266]),
   (Char.ofNat 11531, [Char.ofNat 4267]),
   (Char.ofNat 11532, [Char.ofNat 4268]),
   (Char.ofNat 11533, [Char.ofNat 4269]),
   (Char.ofNat 11534, [Char.ofNat 4270]),
   (Char.ofNat 11535, [Char.ofNat 4271]),
   (Char.ofNat 11536, [Char.ofNat 4272]),
   (Char.ofNat 11537, [Char.ofNat 4273]),
   (Char.ofNat 11538, [Char.ofNat 4274]),
   (Char.ofNat 11539, [Char.ofNat 4275]),
   (Char.ofNat 11540, [Char.ofNat 4276]),
   (Char.ofNat 11541, [Char.ofNat 4277]),
   (Char.ofNat 11542, [Char.ofNat 4278]),
   (Char.ofNat 11543, [Char.ofNat 4279]),
   (Char.ofNat 11544, [Char.ofNat 4280]),
   (Char.ofNat 11545, [Char.ofNat 4281]),
   (Char.ofNat 11546, [Char.ofNat 4282]),
   (Char.ofNat 11547, [Char.ofNat 4283]),
   (Char.ofNat 11548, [Char.ofNat 4284]),
   (Char.ofNat 11549, [Char.ofNat 4285]),
   (Char.ofNat 11550, [Char.ofNat 4286]),
   (Char.ofNat 11551, [Char.ofNat 4287]),
   (Char.ofNat 11552, [Char.ofNat 4288]),
   (Char.ofNat 11553, [Char.ofNat 4289]),
   (Char.ofNat 11554, [Char.ofNat 4290]),
   (Char.ofNat 11555, [Char.ofNat 4291]),
   (Char.ofNat 11556, [Char.ofNat 4292]),
   (Char.ofNat 11557, [Char.ofNat 4293]),
   (Char.ofNat 11559, [Char.ofNat 4295]),
   (Char.ofNat 11565, [Char.ofNat 4301]),
   (Char.ofNat 42561, [Char.ofNat 42560]),
   (Char.ofNat 42563, [Char.ofNat 42562]),
   (Char.ofNat 42565, [Char.ofNat 42564]),
   (Char.ofNat 42567, [Char.ofNat 42566]),
   (Char.ofNat 42569, [Char.ofNat 42568]),
   (Char.ofNat 42571, [Char.ofNat 42570]),
   (Char.ofNat 42573, [Char.ofNat 42572]),
   (Char.ofNat 42575, [Char.ofNat 42574]),
   (Char.ofNat 42577, [Char.ofNat 42576]),
   (Char.ofNat 42579, [Char.ofNat 42578]),
   (Char.ofNat 42581, [Char.ofNat 42580]),
   (Char.ofNat 42583, [Char.ofNat 42582]),
   (Char.ofNat 42585, [Char.ofNat 42584]),
   (Char.ofNat 42587, [Char.ofNat 42586]),
   (Char.ofNat 42589, [Char.ofNat 42588]),
   (Char.ofNat 42591, [Char.ofNat 42590]),
   (Char.ofNat 42593, [Char.ofNat 42592]),
   (Char.ofNat 42595, [Char.ofNat 42594]),
   (Char.ofNat 42597, [Char.ofNat 42596]),
   (Char.ofNat 42599, [Char.ofNat 42598]),
   (Char.ofNat 42601, [Char.ofNat 42600]),
   (Char.ofNat 42603, [Char.ofNat 42602]),
   (Char.ofNat 42605, [Char.ofNat 42604]),
   (Char.ofNat 42625, [Char.ofNat 42624]),
   (Char.ofNat 42627, [Char.ofNat 42626]),
   (Char.ofNat 42629, [Char.ofNat 42628]),
   (Char.ofNat 42631, [Char.ofNat 42630]),
   (Char.ofNat 42633, [Char.ofNat 42632]),
   (Char.ofNat 42635, [Char.ofNat 42634]),
   (Char.ofNat 42637, [Char.ofNat 42636]),
   (Char.ofNat 42639, [Char.ofNat 42638]),
   (Char.ofNat 42641, [Char.ofNat 42640]),
   (Char.ofNat 42643, [Char.ofNat 42642]),
   (Char.ofNat 42645, [Char.ofNat 42644]),
   (Char.ofNat 42647, [Char.ofNat 42646]),
   (Char.ofNat 42649, [Char.ofNat 42648]),
   (Char.ofNat 42651, [Char.ofNat 42650]),
   (Char.ofNat 42787, [Char.ofNat 42786]),
   (Char.ofNat 42789, [Char.ofNat 42788]),
   (Char.ofNat 42791, [Char.ofNat 42790]),
   (Char.ofNat 42793, [Char.ofNat 42792]),
   (Char.ofNat 42795, [Char.ofNat 42794]),
   (Char.ofNat 42797, [Char.ofNat 42796]),
   (Char.ofNat 42799, [Char.ofNat 42798]),
   (Char.ofNat 42803, [Char.ofNat 42802]),
   (Char.ofNat 42805, [Char.ofNat 42804]),
   (Char.ofNat 42807, [Char.ofNat 42806]),
   (Char.ofNat 42809, [Char.ofNat 42808]),
   (Char.ofNat 42811, [Char.ofNat 42810]),
   (Char.ofNat 42813, [Char.ofNat 42812]),
   (Char.ofNat 42815, [Char.ofNat 42814]),
   (Char.ofNat 42817, [Char.ofNat 42816]),
   (Char.ofNat 42819, [Char.ofNat 42818]),
   (Char.ofNat 42821, [Char.ofNat 42820]),
   (Char.ofNat 42823, [Char.ofNat 42822]),
   (Char.ofNat 42825, [Char.ofNat 42824]),
   (Char.ofNat 42827, [Char.ofNat 42826]),
   (Char.ofNat 42829, [Char.ofNat 42828]),
   (Char.ofNat 42831, [Char.ofNat 42830]),
   (Char.ofNat 42833, [Char.ofNat 42832]),
   (Char.ofNat 42835, [Char.ofNat 42834]),
   (Char.ofNat 42837, [Char.ofNat 42836]),
   (Char.ofNat 42839, [Char.ofNat 42838]),
   (Char.ofNat 42841, [Char.ofNat 42840]),
   (Char.ofNat 42843, [Char.ofNat 42842]),
   (Char.ofNat 42845, [Char.ofNat 42844]),
   (Char.ofNat 42847, [Char.ofNat 42846]),
   (Char.ofNat 42849, [Char.ofNat 42848]),
   (Char.ofNat 42851, [Char.ofNat 42850]),
   (Char.ofNat 42853, [Char.ofNat 42852]),
   (Char.ofNat 42855, [Char.ofNat 42854]),
   (Char.ofNat 42857, [Char.ofNat 42856]),
   (Char.ofNat 42859, [Char.ofNat 42858]),
   (Char.ofNat 42861, [Char.ofNat 42860]),
   (Char.ofNat 42863, [Char.ofNat 42862]),
   (Char.ofNat 42874, [Char.ofNat 42873]),
   (Char.ofNat 42876, [Char.ofNat 42875]),
   (Char.ofNat 42879, [Char.ofNat 42878]),
   (Char.ofNat 42881, [Char.ofNat 42880]),
   (Char.ofNat 42883, [Char.ofNat 42882]),
   (Char.ofNat 42885, [Char.ofNat 42884]),
   (Char.ofNat 42887, [Char.ofNat 42886]),
   (Char.ofNat 42892, [Char.ofNat 42891]),
   (Char.ofNat 42897, [Char.ofNat 42896]),
   (Char.ofNat 42899, [Char.ofNat 42898]),
   (Char.ofNat 42900, [Char.ofNat 42948]),
   (Char.ofNat 42903, [Char.ofNat 42902]),
   (Char.ofNat 42905, [Char.ofNat 42904]),
   (Char.ofNat 42907, [Char.ofNat 42906]),
   (Char.ofNat 42909, [Char.ofNat 42908]),
   (Char.ofNat 42911, [Char.ofNat 42910]),
   (Char.ofNat 42913, [Char.ofNat 42912]),
   (Char.ofNat 42915, [Char.ofNat 42914]),
   (Char.ofNat 42917, [Char.ofNat 42916]),
   (Char.ofNat 42919, [Char.ofNat 42918]),
   (Char.ofNat 42921, [Char.ofNat 42920]),
   (Char.ofNat 42933, [Char.ofNat 42932]),
   (Char.ofNat 42935, [Char.ofNat 42934]),
   (Char.ofNat 42937, [Char.ofNat 42936]),
   (Char.ofNat 42939, [Char.ofNat 42938]),
   (Char.ofNat 42941, [Char.ofNat 42940]),
   (Char.ofNat 42943, [Char.ofNat 42942]),
   (Char.ofNat 42945, [Char.ofNat 42944]),
   (Char.ofNat 42947, [Char.ofNat 42946]),
   (Char.ofNat 42952, [Char.ofNat 42951]),
   (Char.ofNat 42954, [Char.ofNat 42953]),
   (Char.ofNat 42961, [Char.ofNat 42960]),
   (Char.ofNat 42967, [Char.ofNat 42966]),
   (Char.ofNat 42969, [Char.ofNat 42968]),
   (Char.ofNat 42998, [Char.ofNat 42997]),
   (Char.ofNat 43859, [Char.ofNat 42931]),
   (Char.ofNat 43888, [Char.ofNat 5024]),
   (Char.ofNat 43889, [Char.ofNat 5025]),
   (Char.ofNat 43890, [Char.ofNat 5026]),
   (Char.ofNat 43891, [Char.ofNat 5027]),
   (Char.ofNat 43892, [Char.ofNat 5028]),
   (Char.ofNat 43893, [Char.ofNat 5029]),
   (Char.ofNat 43894, [Char.ofNat 5030]),
   (Char.ofNat 43895, [Char.ofNat 5031]),
   (Char.ofNat 43896, [Char.ofNat 5032]),
   (Char.ofNat 43897, [Char.ofNat 5033]),
   (Char.ofNat 43898, [Char.ofNat 5034]),
   (Char.ofNat 43899, [Char.ofNat 5035]),
   (Char.ofNat 43900, [Char.ofNat 5036]),
   (Char.ofNat 43901, [Char.ofNat 5037]),
   (Char.ofNat 43902, [Char.ofNat 5038]),
   (Char.ofNat 43903, [Char.ofNat 5039]),
   (Char.ofNat 43904, [Char.ofNat 5040]),
   (Char.ofNat 43905, [Char.ofNat 5041]),
   (Char.ofNat 43906, [Char.ofNat 5042]),
   (Char.ofNat 43907, [Char.ofNat 5043]),
   (Char.ofNat 43908, [Char.ofNat 5044]),
   (Char.ofNat 43909, [Char.ofNat 5045]),
   (Char.ofNat 43910, [Char.ofNat 5046]),
   (Char.ofNat 43911, [Char.ofNat 5047]),
   (Char.ofNat 43912, [Char.ofNat 5048]),
   (Char.ofNat 43913, [Char.ofNat 5049]),
   (Char.ofNat 43914, [Char.ofNat 5050]),
   (Char.ofNat 43915, [Char.ofNat 5051]),
   (Char.ofNat 43916, [Char.ofNat 5052]),
   (Char.ofNat 43917, [Char.ofNat 5053]),
   (Char.ofNat 43918, [Char.ofNat 5054]),
   (Char.ofNat 43919, [Char.ofNat 5055]),
   (Char.ofNat 43920, [Char.ofNat 5056]),
   (Char.ofNat 43921, [Char.ofNat 5057]),
   (Char.ofNat 43922, [Char.ofNat 5058]),
   (Char.ofNat 43923, [Char.ofNat 5059]),
   (Char.ofNat 43924, [Char.ofNat 5060]),
   (Char.ofNat 43925, [Char.ofNat 5061]),
   (Char.ofNat 43926, [Char.ofNat 5062]),
   (Char.ofNat 43927, [Char.ofNat 5063]),
   (Char.ofNat 43928, [Char.ofNat 5064]),
   (Char.ofNat 43929, [Char.ofNat 5065]),
   (Char.ofNat 43930, [Char.ofNat 5066]),
   (Char.ofNat 43931, [Char.ofNat 5067]),
   (Char.ofNat 43932, [Char.ofNat 5068]),
   (Char.ofNat 43933, [Char.ofNat 5069]),
   (Char.ofNat 43934, [Char.ofNat 5070]),
   (Char.ofNat 43935, [Char.ofNat 5071]),
   (Char.ofNat 43936, [Char.ofNat 5072]),
   (Char.ofNat 43937, [Char.ofNat 5073]),
   (Char.ofNat 43938, [Char.ofNat 5074]),
   (Char.ofNat 43939, [Char.ofNat 5075]),
   (Char.ofNat 43940, [Char.ofNat 5076]),
   (Char.ofNat 43941, [Char.ofNat 5077]),
   (Char.ofNat 43942, [Char.ofNat 5078]),
   (Char.ofNat 43943, [Char.ofNat 5079]),
   (Char.ofNat 43944, [Char.ofNat 5080]),
   (Char.ofNat 43945, [Char.ofNat 5081]),
   (Char.ofNat 43946, [Char.ofNat 5082]),
   (Char.ofNat 43947, [Char.ofNat 5083]),
   (Char.ofNat 43948, [Char.ofNat 5084]),
   (Char.ofNat 43949, [Char.ofNat 5085]),
   (Char.ofNat 43950, [Char.ofNat 5086]),
   (Char.ofNat 43951, [Char.ofNat 5087]),
   (Char.ofNat 43952, [Char.ofNat 5088]),
   (Char.ofNat 43953, [Char.ofNat 5089]),
   (Char.ofNat 43954, [Char.ofNat 5090]),
   (Char.ofNat 43955, [Char.ofNat 5091]),
   (Char.ofNat 43956, [Char.ofNat 5092]),
   (Char.ofNat 43957, [Char.ofNat 5093]),
   (Char.ofNat 43958, [Char.ofNat 5094]),
   (Char.ofNat 43959, [Char.ofNat 5095]),
   (Char.ofNat 43960, [Char.ofNat 5096]),
   (Char.ofNat 43961, [Char.ofNat 5097]),
   (Char.ofNat 43962, [Char.ofNat 5098]),
   (Char.ofNat 43963, [Char.ofNat 5099]),
   (Char.ofNat 43964, [Char.ofNat 5100]),
   (Char.ofNat 43965, [Char.ofNat 5101]),
   (Char.ofNat 43966, [Char.ofNat 5102]),
   (Char.ofNat 43967, [Char.ofNat 5103]),
   (Char.ofNat 64256, [Char.ofNat 70, Char.ofNat 70]),
   (Char.ofNat 64257, [Char.ofNat 70, Char.ofNat 73]),
   (Char.ofNat 64258, [Char.ofNat 70, Char.ofNat 76]),
   (Char.ofNat 64259, [Char.ofNat 70, Char.ofNat 70, Char.ofNat 73]),
   (Char.ofNat 64260, [Char.ofNat 70, Char.ofNat 70, Char.ofNat 76]),
   (Char.ofNat 64261, [Char.ofNat 83, Char.ofNat 84]),
   (Char.ofNat 64262, [Char.ofNat 83, Char.ofNat 84]),
   (Char.ofNat 64275, [Char.ofNat 1348, Char.ofNat 1350]),
   (Char.ofNat 64276, [Char.ofNat 1348, Char.ofNat 1333]),
   (Char.ofNat 64277, [Char.ofNat 1348, Char.ofNat 1339]),
   (Char.ofNat 64278, [Char.ofNat 1358, Char.ofNat 1350]),
   (Char.ofNat 64279, [Char.ofNat 1348, Char.ofNat 1341]),
   (Char.ofNat 65345, [Char.ofNat 65313]),
   (Char.ofNat 65346, [Char.ofNat 65314]),
   (Char.ofNat 65347, [Char.ofNat 65315]),
   (Char.ofNat 65348, [Char.ofNat 65316]),
   (Char.ofNat 65349, [Char.ofNat 65317]),
   (Char.ofNat 65350, [Char.ofNat 65318]),
   (Char.ofNat 65351, [Char.ofNat 65319]),
   (Char.ofNat 65352, [Char.ofNat 65320]),
   (Char.ofNat 65353, [Char.ofNat 65321]),
   (Char.ofNat 65354, [Char.ofNat 65322]),
   (Char.ofNat 65355, [Char.ofNat 65323]),
   (Char.ofNat 65356, [Char.ofNat 65324]),
   (Char.ofNat 65357, [Char.ofNat 65325]),
   (Char.ofNat 65358, [Char.ofNat 65326]),
   (Char.ofNat 65359, [Char.ofNat 65327]),
   (Char.ofNat 65360, [Char.ofNat 65328]),
   (Char.ofNat 65361, [Char.ofNat 65329]),
   (Char.ofNat 65362, [Char.ofNat 65330]),
   (Char.ofNat 65363, [Char.ofNat 65331]),
   (Char.ofNat 65364, [Char.ofNat 65332]),
   (Char.ofNat 65365, [Char.ofNat 65333]),
   (Char.ofNat 65366, [Char.ofNat 65334]),
   (Char.ofNat 65367, [Char.ofNat 65335]),
   (Char.ofNat 65368, [Char.ofNat 65336]),
   (Char.ofNat 65369, [Char.ofNat 65337]),
   (Char.ofNat 65370, [Char.ofNat 65338]),
   (Char.ofNat 66600, [Char.ofNat 66560]),
   (Char.ofNat 66601, [Char.ofNat 66561]),
   (Char.ofNat 66602, [Char.ofNat 66562]),
   (Char.ofNat 66603, [Char.ofNat 66563]),
   (Char.ofNat 66604, [Char.ofNat 66564]),
   (Char.ofNat 66605, [Char.ofNat 66565]),
   (Char.ofNat 66606, [Char.ofNat 66566]),
   (Char.ofNat 66607, [Char.ofNat 66567]),
   (Char.ofNat 66608, [Char.ofNat 66568]),
   (Char.ofNat 66609, [Char.ofNat 66569]),
   (Char.ofNat 66610, [Char.ofNat 66570]),
   (Char.ofNat 66611, [Char.ofNat 66571]),
   (Char.ofNat 66612, [Char.ofNat 66572]),
   (Char.ofNat 66613, [Char.ofNat 66573]),
   (Char.ofNat 66614, [Char.ofNat 66574]),
   (Char.ofNat 66615, [Char.ofNat 66575]),
   (Char.ofNat 66616, [Char.ofNat 66576]),
   (Char.ofNat 66617, [Char.ofNat 66577]),
   (Char.ofNat 66618, [Char.ofNat 66578]),
   (Char.ofNat 66619, [Char.ofNat 66579]),
   (Char.ofNat 66620, [Char.ofNat 66580]),
   (Char.ofNat 66621, [Char.ofNat 66581]),
   (Char.ofNat 66622, [Char.ofNat 66582]),
   (Char.ofNat 66623, [Char.ofNat 66583]),
   (Char.ofNat 66624, [Char.ofNat 66584]),
   (Char.ofNat 66625, [Char.ofNat 66585]),
   (Char.ofNat 66626, [Char.ofNat 66586]),
   (Char.ofNat 66627, [Char.ofNat 66587]),
   (Char.ofNat 66628, [Char.ofNat 66588]),
   (Char.ofNat 66629, [Char.ofNat 66589]),
   (Char.ofNat 66630, [Char.ofNat 66590]),
   (Char.ofNat 66631, [Char.ofNat 66591]),
   (Char.ofNat 66632, [Char.ofNat 66592]),
   (Char.ofNat 66633, [Char.ofNat 66593]),
   (Char.ofNat 66634, [Char.ofNat 66594]),
   (Char.ofNat 66635, [Char.ofNat 66595]),
   (Char.ofNat 66636, [Char.ofNat 66596]),
   (Char.ofNat 66637, [Char.ofNat 66597]),
   (Char.ofNat 66638, [Char.ofNat 66598]),
   (Char.ofNat 66639, [Char.ofNat 66599]),
   (Char.ofNat 66776, [Char.ofNat 66736]),
   (Char.ofNat 66777, [Char.ofNat 66737]),
   (Char.ofNat 66778, [Char.ofNat 66738]),
   (Char.ofNat 66779, [Char.ofNat 66739]),
   (Char.ofNat 66780, [Char.ofNat 66740]),
   (Char.ofNat 66781, [Char.ofNat 66741]),
   (Char.ofNat 66782, [Char.ofNat 66742]),
   (Char.ofNat 66783, [Char.ofNat 66743]),
   (Char.ofNat 66784, [Char.ofNat 66744]),
   (Char.ofNat 66785, [Char.ofNat 66745]),
   (Char.ofNat 66786, [Char.ofNat 66746]),
   (Char.ofNat 66787, [Char.ofNat 66747]),
   (Char.ofNat 66788, [Char.ofNat 66748]),
   (Char.ofNat 66789, [Char.ofNat 66749]),
   (Char.ofNat 66790, [Char.ofNat 66750]),
   (Char.ofNat 66791, [Char.ofNat 66751]),
   (Char.ofNat 66792, [Char.ofNat 66752]),
   (Char.ofNat 66793, [Char.ofNat 66753]),
   (Char.ofNat 66794, [Char.ofNat 66754]),
   (Char.ofNat 66795, [Char.ofNat 66755]),
   (Char.ofNat 66796, [Char.ofNat 66756]),
   (Char.ofNat 66797, [Char.ofNat 66757]),
   (Char.ofNat 66798, [Char.ofNat 66758]),
   (Char.ofNat 66799, [Char.ofNat 66759]),
   (Char.ofNat 66800, [Char.ofNat 66760]),
   (Char.ofNat 66801, [Char.ofNat 66761]),
   (Char.ofNat 66802, [Char.ofNat 66762]),
   (Char.ofNat 66803, [Char.ofNat 66763]),
   (Char.ofNat 66804, [Char.ofNat 66764]),
   (Char.ofNat 66805, [Char.ofNat 66765]),
   (Char.ofNat 66806, [Char.ofNat 66766]),
   (Char.ofNat 66807, [Char.ofNat 66767]),
   (Char.ofNat 66808, [Char.ofNat 66768]),
   (Char.ofNat 66809, [Char.ofNat 66769]),
   (Char.ofNat 66810, [Char.ofNat 66770]),
   (Char.ofNat 66811, [Char.ofNat 66771]),
   (Char.ofNat 66967, [Char.ofNat 66928]),
   (Char.ofNat 66968, [Char.ofNat 66929]),
   (Char.ofNat 66969, [Char.ofNat 66930]),
   (Char.ofNat 66970, [Char.ofNat 66931]),
   (Char.ofNat 66971, [Char.ofNat 66932]),
   (Char.ofNat 66972, [Char.ofNat 66933]),
   (Char.ofNat 66973, [Char.ofNat 66934]),
   (Char.ofNat 66974, [Char.ofNat 66935]),
   (Char.ofNat 66975, [Char.ofNat 66936]),
   (Char.ofNat 66976, [Char.ofNat 66937]),
   (Char.ofNat 66977, [Char.ofNat 66938]),
   (Char.ofNat 66979, [Char.ofNat 66940]),
   (Char.ofNat 66980, [Char.ofNat 66941]),
   (Char.ofNat 66981, [Char.ofNat 66942]),
   (Char.ofNat 66982, [Char.ofNat 66943]),
   (Char.ofNat 66983, [Char.ofNat 66944]),
   (Char.ofNat 66984, [Char.ofNat 66945]),
   (Char.ofNat 66985, [Char.ofNat 66946]),
   (Char.ofNat 66986, [Char.ofNat 66947]),
   (Char.ofNat 66987, [Char.ofNat 66948]),
   (Char.ofNat 66988, [Char.ofNat 66949]),
   (Char.ofNat 66989, [Char.ofNat 66950]),
   (Char.ofNat 66990, [Char.ofNat 66951]),
   (Char.ofNat 66991, [Char.ofNat 66952]),
   (Char.ofNat 66992, [Char.ofNat 66953]),
   (Char.ofNat 66993, [Char.ofNat 66954]),
   (Char.ofNat 66995, [Char.ofNat 66956]),
   (Char.ofNat 66996, [Char.ofNat 66957]),
   (Char.ofNat 66997, [Char.ofNat 66958]),
   (Char.ofNat 66998, [Char.ofNat 66959]),
   (Char.ofNat 66999, [Char.ofNat 66960]),
   (Char.ofNat 67000, [Char.ofNat 66961]),
   (Char.ofNat 67001, [Char.ofNat 66962]),
   (Char.ofNat 67003, [Char.ofNat 66964]),
   (Char.ofNat 67004, [Char.ofNat 66965]),
   (Char.ofNat 68800, [Char.ofNat 68736]),
   (Char.ofNat 68801, [Char.ofNat 68737]),
   (Char.ofNat 68802, [Char.ofNat 68738]),
   (Char.ofNat 68803, [Char.ofNat 68739]),
   (Char.ofNat 68804, [Char.ofNat 68740]),
   (Char.ofNat 68805, [Char.ofNat 68741]),
   (Char.ofNat 68806, [Char.ofNat 68742]),
   (Char.ofNat 68807, [Char.ofNat 68743]),
   (Char.ofNat 68808, [Char.ofNat 68744]),
   (Char.ofNat 68809, [Char.ofNat 68745]),
   (Char.ofNat 68810, [Char.ofNat 68746]),
   (Char.ofNat 68811, [Char.ofNat 68747]),
   (Char.ofNat 68812, [Char.ofNat 68748]),
   (Char.ofNat 68813, [Char.ofNat 68749]),
   (Char.ofNat 68814, [Char.ofNat 68750]),
   (Char.ofNat 68815, [Char.ofNat 68751]),
   (Char.ofNat 68816, [Char.ofNat 68752]),
   (Char.ofNat 68817, [Char.ofNat 68753]),
   (Char.ofNat 68818, [Char.ofNat 68754]),
   (Char.ofNat 68819, [Char.ofNat 68755]),
   (Char.ofNat 68820, [Char.ofNat 68756]),
   (Char.ofNat 68821, [Char.ofNat 68757]),
   (Char.ofNat 68822, [Char.ofNat 68758]),
   (Char.ofNat 68823, [Char.ofNat 68759]),
   (Char.ofNat 68824, [Char.ofNat 68760]),
   (Char.ofNat 68825, [Char.ofNat 68761]),
   (Char.ofNat 68826, [Char.ofNat 68762]),
   (Char.ofNat 68827, [Char.ofNat 68763]),
   (Char.ofNat 68828, [Char.ofNat 68764]),
   (Char.ofNat 68829, [Char.ofNat 68765]),
   (Char.ofNat 68830, [Char.ofNat 68766]),
   (Char.ofNat 68831, [Char.ofNat 68767]),
   (Char.ofNat 68832, [Char.ofNat 68768]),
   (Char.ofNat 68833, [Char.ofNat 68769]),
   (Char.ofNat 68834, [Char.ofNat 68770]),
   (Char.ofNat 68835, [Char.ofNat 68771]),
   (Char.ofNat 68836, [Char.ofNat 68772]),
   (Char.ofNat 68837, [Char.ofNat 68773]),
   (Char.ofNat 68838, [Char.ofNat 68774]),
   (Char.ofNat 68839, [Char.ofNat 68775]),
   (Char.ofNat 68840, [Char.ofNat 68776]),
   (Char.ofNat 68841, [Char.ofNat 68777]),
   (Char.ofNat 68842, [Char.ofNat 68778]),
   (Char.ofNat 68843, [Char.ofNat 68779]),
   (Char.ofNat 68844, [Char.ofNat 68780]),
   (Char.ofNat 68845, [Char.ofNat 68781]),
   (Char.ofNat 68846, [Char.ofNat 68782]),
   (Char.ofNat 68847, [Char.ofNat 68783]),
   (Char.ofNat 68848, [Char.ofNat 68784]),
   (Char.ofNat 68849, [Char.ofNat 68785]),
   (Char.ofNat 68850, [Char.ofNat 68786]),
   (Char.ofNat 71872, [Char.ofNat 71840]),
   (Char.ofNat 71873, [Char.ofNat 71841]),
   (Char.ofNat 71874, [Char.ofNat 71842]),
   (Char.ofNat 71875, [Char.ofNat 71843]),
   (Char.ofNat 71876, [Char.ofNat 71844]),
   (Char.ofNat 71877, [Char.ofNat 71845]),
   (Char.ofNat 71878, [Char.ofNat 71846]),
   (Char.ofNat 71879, [Char.ofNat 71847]),
   (Char.ofNat 71880, [Char.ofNat 71848]),
   (Char.ofNat 71881, [Char.ofNat 71849]),
   (Char.ofNat 71882, [Char.ofNat 71850]),
   (Char.ofNat 71883, [Char.ofNat 71851]),
   (Char.ofNat 71884, [Char.ofNat 71852]),
   (Char.ofNat 71885, [Char.ofNat 71853]),
   (Char.ofNat 71886, [Char.ofNat 71854]),
   (Char.ofNat 71887, [Char.ofNat 71855]),
   (Char.ofNat 71888, [Char.ofNat 71856]),
   (Char.ofNat 71889, [Char.ofNat 71857]),
   (Char.ofNat 71890, [Char.ofNat 71858]),
   (Char.ofNat 71891, [Char.ofNat 71859]),
   (Char.ofNat 71892, [Char.ofNat 71860]),
   (Char.ofNat 71893, [Char.ofNat 71861]),
   (Char.ofNat 71894, [Char.ofNat 71862]),
   (Char.ofNat 71895, [Char.ofNat 71863]),
   (Char.ofNat 71896, [Char.ofNat 71864]),
   (Char.ofNat 71897, [Char.ofNat 71865]),
   (Char.ofNat 71898, [Char.ofNat 71866]),
   (Char.ofNat 71899, [Char.ofNat 71867]),
   (Char.ofNat 71900, [Char.ofNat 71868]),
   (Char.ofNat 71901, [Char.ofNat 71869]),
   (Char.ofNat 71902, [Char.ofNat 71870]),
   (Char.ofNat 71903, [Char.ofNat 71871]),
   (Char.ofNat 93792, [Char.ofNat 93760]),
   (Char.ofNat 93793, [Char.ofNat 93761]),
   (Char.ofNat 93794, [Char.ofNat 93762]),
   (Char.ofNat 93795, [Char.ofNat 93763]),
   (Char.ofNat 93796, [Char.ofNat 93764]),
   (Char.ofNat 93797, [Char.ofNat 93765]),
   (Char.ofNat 93798, [Char.ofNat 93766]),
   (Char.ofNat 93799, [Char.ofNat 93767]),
   (Char.ofNat 93800, [Char.ofNat 93768]),
   (Char.ofNat 93801, [Char.ofNat 93769]),
   (Char.ofNat 93802, [Char.ofNat 93770]),
   (Char.ofNat 93803, [Char.ofNat 93771]),
   (Char.ofNat 93804, [Char.ofNat 93772]),
   (Char.ofNat 93805, [Char.ofNat 93773]),
   (Char.ofNat 93806, [Char.ofNat 93774]),
   (Char.ofNat 93807, [Char.ofNat 93775]),
   (Char.ofNat 93808, [Char.ofNat 93776]),
   (Char.ofNat 93809, [Char.ofNat 93777]),
   (Char.ofNat 93810, [Char.ofNat 93778]),
   (Char.ofNat 93811, [Char.ofNat 93779]),
   (Char.ofNat 93812, [Char.ofNat 93780]),
   (Char.ofNat 93813, [Char.ofNat 93781]),
   (Char.ofNat 93814, [Char.ofNat 93782]),
   (Char.ofNat 93815, [Char.ofNat 93783]),
   (Char.ofNat 93816, [Char.ofNat 93784]),
   (Char.ofNat 93817, [Char.ofNat 93785]),
   (Char.ofNat 93818, [Char.ofNat 93786]),
   (Char.ofNat 93819, [Char.ofNat 93787]),
   (Char.ofNat 93820, [Char.ofNat 93788]),
   (Char.ofNat 93821, [Char.ofNat 93789]),
   (Char.ofNat 93822, [Char.ofNat 93790]),
   (Char.ofNat 93823, [Char.ofNat 93791]),
   (Char.ofNat 125218, [Char.ofNat 125184]),
   (Char.ofNat 125219, [Char.ofNat 125185]),
   (Char.ofNat 125220, [Char.ofNat 125186]),
   (Char.ofNat 125221, [Char.ofNat 125187]),
   (Char.ofNat 125222, [Char.ofNat 125188]),
   (Char.ofNat 125223, [Char.ofNat 125189]),
   (Char.ofNat 125224, [Char.ofNat 125190]),
   (Char.ofNat 125225, [Char.ofNat 125191]),
   (Char.ofNat 125226, [Char.ofNat 125192]),
   (Char.ofNat 125227, [Char.ofNat 125193]),
   (Char.ofNat 125228, [Char.ofNat 125194]),
   (Char.ofNat 125229, [Char.ofNat 125195]),
   (Char.ofNat 125230, [Char.ofNat 125196]),
   (Char.ofNat 125231, [Char.ofNat 125197]),
   (Char.ofNat 125232, [Char.ofNat 125198]),
   (Char.ofNat 125233, [Char.ofNat 125199]),
   (Char.ofNat 125234, [Char.ofNat 125200]),
   (Char.ofNat 125235, [Char.ofNat 125201]),
   (Char.ofNat 125236, [Char.ofNat 125202]),
   (Char.ofNat 125237, [Char.ofNat 125203]),
   (Char.ofNat 125238, [Char.ofNat 125204]),
   (Char.ofNat 125239, [Char.ofNat 125205]),
   (Char.ofNat 125240, [Char.ofNat 125206]),
   (Char.ofNat 125241, [Char.ofNat 125207]),
   (Char.ofNat 125242, [Char.ofNat 125208]),
   (Char.ofNat 125243, [Char.ofNat 125209]),
   (Char.ofNat 125244, [Char.ofNat 125210]),
   (Char.ofNat 125245, [Char.ofNat 125211]),
   (Char.ofNat 125246, [Char.ofNat 125212]),
   (Char.ofNat 125247, [Char.ofNat 125213]),
   (Char.ofNat 125248, [Char.ofNat 125214]),
   (Char.ofNat 125249, [Char.ofNat 125215]),
   (Char.ofNat 125250, [Char.ofNat 125216]),
   (Char.ofNat 125251, [Char.ofNat 125217])]

/-- Python's `str.upper()` on a one-character string: the full Unicode
uppercase mapping, which may expand to several characters (e.g. one sharp s
uppercases to two letters S). -/
def pyUpperChar (c : Char) : List Char :=
  match upperTable.find? (fun e => e.1 == c) with
  | some e => e.2
  | none => [c]

/-- Lines 23-27 of app.py: if `first_name` and `last_name` are both non-empty
(Python truthiness on strings), `first[0].upper()` concatenated with
`last[0].upper()`, else the empty string. -/
def pyInitials (first last : String) : String :=
  match first.data, last.data with
  | f :: _, l :: _ => String.mk (pyUpperChar f ++ pyUpperChar l)
  | _, _ => ""

/-- Line 30 of app.py: `phone if phone else email`. -/
def primaryContact (phone email : String) : String :=
  if phone = "" then email else phone

/-- Line 37 of app.py: `int(hash_object.hexdigest(), 16) % 100000` where
`hash_object = hashlib.sha256(combined_string.encode())`. -/
def uniqueNumber (s : String) : Nat :=
  hexToNat (hexdigestStr (sha256Bytes (utf8Bytes s))) % 100000

/-- Lines 23-42 of app.py: the original generation logic over already
string-normalized inputs. -/
def generate (first middle last kendra zone email phone : String) : String :=
  pyInitials first last ++ "-" ++
    pad5 (uniqueNumber (first ++ middle ++ last ++ kendra ++ zone ++ primaryContact phone email))

/-- Lines 13-19 of app.py: `str(x) if pd.notna(x) else \x22\x22` for a cell that
is either a string or NaN/None (`none`). -/
def normalize (o : Option String) : String := o.getD ""

/-- `generate_deterministic_unique_id_with_initials` including the NaN
normalization prologue: each argument is a string or a missing value. -/
def generateOpt (first middle last kendra zone email phone : Option String) : String :=
  generate (normalize first) (normalize middle) (normalize last) (normalize kendra)
    (normalize zone) (normalize email) (normalize phone)

/-- Follows the spec's words (§4.1 step 3): PRIMARY_CONTACT is `phone` if
`phone` is non-empty, else `email`. -/
def specPrimaryContact (phone email : String) : String :=
  if phone ≠ "" then phone else email

/-- Follows the spec's words (§4.1 step 4): the unseparated concatenation
`first + middle + last + org_unit_primary + org_unit_secondary + PRIMARY_CONTACT`. -/
def specConcat (first middle last org1 org2 email phone : String) : String :=
  first ++ middle ++ last ++ org1 ++ org2 ++ specPrimaryContact phone email

/-- Follows the spec's words (§4.1 step 6): the digest read as a base-16 big
integer, i.e. the 32 digest bytes as one big-endian number. -/
def specDigest (s : String) : Nat :=
  (sha256Bytes (utf8Bytes s)).foldl (fun x b => 256 * x + b) 0

/-- Follows the spec's words (§4.1 steps 2-8): INITIALS, a dash, then the
digest value reduced modulo 100000 and zero-padded to five digits. -/
def specGenerate (first middle last org1 org2 email phone : String) : String :=
  pyInitials first last ++ "-" ++
    pad5 (specDigest (specConcat first middle last org1 org2 email phone) % 100000)

/-- Decimal value of a digit-character list, most significant first. -/
def decValue (l : List Char) : Nat :=
  l.foldl (fun a c => 10 * a + (c.toNat - 48)) 0

/-- The five characters after the dash: the tail of the identifier. -/
def digitsPart (s : String) : List Char :=
  s.data.drop (s.data.length - 5)

/-- The shape claimed for identifiers: at least six characters, a dash before
the last five, the last five all decimal digits, and the part before the dash
(the INITIALS) either empty or two uppercase letters. -/
def claimC3ShapeB (s : String) : Bool :=
  decide (6 ≤ s.data.length) &&
    (s.data.getD (s.data.length - 6) ' ' == '-') &&
    (s.data.drop (s.data.length - 5)).all Char.isDigit &&
    ((s.data.take (s.data.length - 6)).length == 0 ||
      ((s.data.take (s.data.length - 6)).length == 2 &&
        (s.data.take (s.data.length - 6)).all Char.isUpper))

/-- A table: named columns and rows of cells; a cell is a string or a
missing/NaN value (`none`). -/
structure Table where
  cols : List String
  rows : List (List (Option String))
deriving DecidableEq

/-- Models pandas `row.get(c, '')` on a row of the table: the cell under
column `c` (possibly NaN), or the string default when no such column exists. -/
def rowGet (cols : List String) (row : List (Option String)) (c : String) : Option String :=
  match cols.findIdx? (· == c) with
  | some i => row.getD i none
  | none => some ""

/-- Models a Python dict lookup `mp.get(k)` on the column mapping. -/
def mlookup (mp : List (String × String)) (k : String) : Option String :=
  (mp.find? (·.1 == k)).map (·.2)

/-- Lines 56-61 of app.py: `row.get(column_mapping[name], '')`.  A missing
mapping key is a `KeyError`, reported as `Except.error`. -/
def extractField (mp : List (String × String)) (cols : List String)
    (row : List (Option String)) (name : String) : Except Unit (Option String) :=
  match mlookup mp name with
  | some col => .ok (rowGet cols row col)
  | none => .error ()

/-- Line 62 of app.py: `row.get(column_mapping.get('phone', ''), '')` — the
phone key alone is looked up with a default. -/
def extractPhone (mp : List (String × String)) (cols : List String)
    (row : List (Option String)) : Option String :=
  rowGet cols row ((mlookup mp "phone").getD "")

/-- The body of the per-row `try` block (lines 55-64 of app.py): extract the
seven fields, then generate; any extraction failure aborts only this row. -/
def rowIdE (mp : List (String × String)) (cols : List String)
    (row : List (Option String)) : Except Unit String := do
  let f ← extractField mp cols row "first_name"
  let m ← extractField mp cols row "middle_name"
  let l ← extractField mp cols row "last_name"
  let k ← extractField mp cols row "kendra"
  let z ← extractField mp cols row "zone"
  let e ← extractField mp cols row "email"
  .ok (generateOpt f m l k z e (extractPhone mp cols row))

/-- Lines 54-67 of app.py: the per-row result, with the `except` branch
recording the literal sentinel "ERROR". -/
def rowId (mp : List (String × String)) (cols : List String)
    (row : List (Option String)) : String :=
  match rowIdE mp cols row with
  | .ok s => s
  | .error _ => "ERROR"

/-- Lines 52-67 of app.py: the `unique_ids` list, one entry per row, in row
order. -/
def computeIds (mp : List (String × String)) (t : Table) : List String :=
  t.rows.map (rowId mp t.cols)

/-- Line 70 of app.py: `processed_df.insert(0, 'Unique_ID', unique_ids)` — a
new leading column. -/
def insertIdCol (t : Table) (ids : List String) : Table :=
  ⟨"Unique_ID" :: t.cols, List.zipWith (fun id row => some id :: row) ids t.rows⟩

/-- Line 49 of app.py: `df.copy()` — a fresh table with the same contents. -/
def tableCopy (t : Table) : Table := ⟨t.cols, t.rows⟩

/-- Lines 44-72 of app.py: `process_dataframe` as a pure function on tables. -/
def processDataframe (t : Table) (mp : List (String × String)) : Table :=
  insertIdCol (tableCopy t) (computeIds mp t)

/-- The default table used for out-of-range heap reads. -/
def emptyTable : Table := ⟨[], []⟩

/-- Lines 44-72 of app.py with object identity made explicit: tables live in a
heap of objects, `df.copy()` allocates a new object, and
`processed_df.insert(0, ...)` mutates only the allocated copy.  Returns the
final heap and the reference to `processed_df`. -/
def runProcessHeap (h : List Table) (dfRef : Nat) (mp : List (String × String)) :
    List Table × Nat :=
  let df := h.getD dfRef emptyTable
  let h1 := h ++ [tableCopy df]
  let pRef := h.length
  let h2 := h1.set pRef (insertIdCol (h1.getD pRef emptyTable) (computeIds mp df))
  (h2, pRef)

/-- Line 262 of app.py: `processed_df['Unique_ID'].nunique()` — the number of
distinct values in the identifier column (all entries are strings, so no
NaN exclusion applies). -/
def uniqueCount (ids : List String) : Nat := ids.dedup.length

/-- Line 266 of app.py: `duplicate_count = len(processed_df) - unique_count`. -/
def duplicateCount (ids : List String) : Nat := ids.length - uniqueCount ids

/-- The distinct count as the claim words it: distinct values excluding the
"ERROR" sentinel. -/
def claimDistinctNonError (ids : List String) : Nat :=
  (ids.filter (fun v => v != "ERROR")).dedup.length

/-- The duplicate count as the claim words it: the number of rows whose value
is shared with at least one other row. -/
def claimDupRowCount (ids : List String) : Nat :=
  (ids.filter (fun v => 2 ≤ ids.count v)).length

/-- FIPS 180-4 test vector: SHA-256 of the empty message. -/
theorem sha256_vector_empty :
    hexdigestStr (sha256Bytes []) =
      "e3b0c44298fc1c149afbf4c8996fb92427ae41e4649b934ca495991b7852b855" := by
  decide

/-- FIPS 180-4 test vector: SHA-256 of "abc". -/
theorem sha256_vector_abc :
    hexdigestStr (sha256Bytes (utf8Bytes "abc")) =
      "ba7816bf8f01cfea414140de5dae2223b00361a396177a9cb410ff61f20015ad" := by
  decide

/-- Golden value from the spec's §8 example: first "John", last "Doe", all
other fields empty, concatenation "JohnDoe". -/
theorem generate_golden_JohnDoe :
    generate "John" "" "Doe" "" "" "" "" = "JD-74319" := by
  decide

theorem hexCharVal_hexDigitChar (d : Nat) (hd : d < 16) :
    hexCharVal (hexDigitChar d) = d := by
  interval_cases d <;> decide

theorem foldl_hexChars (bs : List Nat) (hb : ∀ b ∈ bs, b < 256) (a : Nat) :
    List.foldl (fun x c => 16 * x + hexCharVal c) a
        (bs.foldr (fun b acc => byteHex b ++ acc) []) =
      bs.foldl (fun x b => 256 * x + b) a := by
  induction bs generalizing a with
  | nil => rfl
  | cons b bs ih =>
    have hb0 : b < 256 := hb b (by simp)
    have hby : List.foldl (fun x c => 16 * x + hexCharVal c) a (byteHex b) = 256 * a + b := by
      simp only [byteHex, List.foldl_cons, List.foldl_nil]
      rw [hexCharVal_hexDigitChar (b / 16) (by omega),
        hexCharVal_hexDigitChar (b % 16) (by omega)]
      omega
    rw [List.foldr_cons, List.foldl_append, hby, List.foldl_cons]
    exact ih (fun x hx => hb x (List.mem_cons_of_mem _ hx)) (256 * a + b)

theorem mem_wordBytes_foldr_lt (ws : List Nat) (b : Nat)
    (hb : b ∈ ws.foldr (fun w acc => wordBytes w ++ acc) []) : b < 256 := by
  induction ws with
  | nil => simp at hb
  | cons w ws ih =>
    simp only [List.foldr_cons, wordBytes, List.mem_append, List.mem_cons,
      List.mem_singleton, List.not_mem_nil] at hb
    rcases hb with (h | h | h | h | h) | h
    · omega
    · omega
    · omega
    · omega
    · simp at h
    · exact ih h

theorem sha256Bytes_lt (m : List Nat) (b : Nat) (hb : b ∈ sha256Bytes m) : b < 256 := by
  unfold sha256Bytes at hb
  exact mem_wordBytes_foldr_lt _ b hb

theorem hexToNat_hexdigest (bs : List Nat) (hb : ∀ b ∈ bs, b < 256) :
    hexToNat (hexdigestStr bs) = bs.foldl (fun x b => 256 * x + b) 0 := by
  unfold hexToNat hexdigestStr
  exact foldl_hexChars bs hb 0

theorem primaryContact_eq_spec (phone email : String) :
    primaryContact phone email = specPrimaryContact phone email := by
  unfold primaryContact specPrimaryContact
  by_cases h : phone = "" <;> simp [h]

/-- C1: for every seven inputs (null/missing normalized to the empty string),
generate returns INITIALS ++ "-" ++ D where the concatenation is
first + middle + last + org_unit_primary + org_unit_secondary + PRIMARY_CONTACT
with no separators, PRIMARY_CONTACT is phone when non-empty else email, the
concatenation's UTF-8 bytes are hashed with SHA-256, the digest read as a
base-16 big integer is reduced modulo 100000, and D is that residue as a
5-digit zero-padded decimal string. -/
theorem generate_follows_spec_pipeline (first middle last kendra zone email phone : Option String) :
    generateOpt first middle last kendra zone email phone =
      specGenerate (first.getD "") (middle.getD "") (last.getD "") (kendra.getD "")
        (zone.getD "") (email.getD "") (phone.getD "") := by
  unfold generateOpt generate specGenerate normalize uniqueNumber specDigest specConcat
  rw [hexToNat_hexdigest _ (fun b hb => sha256Bytes_lt _ b hb), primaryContact_eq_spec]

/-- C5: when phone is non-empty, the email argument has zero influence on the
output of generate. -/
theorem generate_email_no_influence (first middle last kendra zone phone e1 e2 : String)
    (hp : phone ≠ "") :
    generate first middle last kendra zone e1 phone =
      generate first middle last kendra zone e2 phone := by
  unfold generate primaryContact
  rw [if_neg hp, if_neg hp]

/-- C5 witness: with phone "555", two different email values give the same
identifier. -/
theorem generate_email_no_influence_witness :
    generate "John" "" "Doe" "" "" "a@x.com" "555" =
      generate "John" "" "Doe" "" "" "anything-else" "555" :=
  generate_email_no_influence "John" "" "Doe" "" "" "555" "a@x.com" "anything-else"
    (by decide)

/-- C8: identifier generation is deterministic — identical field tuples yield
an identical identifier string. -/
theorem generate_deterministic (f1 m1 l1 k1 z1 e1 p1 f2 m2 l2 k2 z2 e2 p2 : String)
    (hf : f1 = f2) (hm : m1 = m2) (hl : l1 = l2) (hk : k1 = k2) (hz : z1 = z2)
    (he : e1 = e2) (hp : p1 = p2) :
    generate f1 m1 l1 k1 z1 e1 p1 = generate f2 m2 l2 k2 z2 e2 p2 := by
  subst hf hm hl hk hz he hp
  rfl

/-- C8 witness: two calls on the same concrete tuple agree. -/
theorem generate_deterministic_witness :
    generate "John" "" "Doe" "" "" "" "" = generate "John" "" "Doe" "" "" "" "" :=
  generate_deterministic "John" "" "Doe" "" "" "" "" "John" "" "Doe" "" "" "" ""
    rfl rfl rfl rfl rfl rfl rfl

theorem string_eq_empty_iff (s : String) : s = "" ↔ s.data = [] := by
  obtain ⟨d⟩ := s
  constructor
  · intro h
    rw [h]
  · intro h
    have h' : d = [] := h
    subst h'
    decide

theorem digit_char_isDigit (d : Nat) (hd : d < 10) : (Char.ofNat (48 + d)).isDigit = true := by
  interval_cases d <;> decide

theorem digit_char_toNat (d : Nat) (hd : d < 10) : (Char.ofNat (48 + d)).toNat = 48 + d := by
  interval_cases d <;> decide

theorem pad5_data (n : Nat) :
    (pad5 n).data = [Char.ofNat (48 + n / 10000 % 10), Char.ofNat (48 + n / 1000 % 10),
      Char.ofNat (48 + n / 100 % 10), Char.ofNat (48 + n / 10 % 10),
      Char.ofNat (48 + n % 10)] := rfl

theorem pad5_length (n : Nat) : (pad5 n).data.length = 5 := rfl

theorem pad5_all_digits (n : Nat) : (pad5 n).data.all Char.isDigit = true := by
  rw [pad5_data]
  simp only [List.all_cons, List.all_nil, Bool.and_true]
  rw [digit_char_isDigit _ (Nat.mod_lt _ (by omega)),
    digit_char_isDigit _ (Nat.mod_lt _ (by omega)),
    digit_char_isDigit _ (Nat.mod_lt _ (by omega)),
    digit_char_isDigit _ (Nat.mod_lt _ (by omega)),
    digit_char_isDigit _ (Nat.mod_lt _ (by omega))]
  decide

theorem decValue_pad5 (n : Nat) : decValue (pad5 n).data = n % 100000 := by
  rw [pad5_data]
  unfold decValue
  simp only [List.foldl_cons, List.foldl_nil]
  rw [digit_char_toNat _ (Nat.mod_lt _ (by omega)),
    digit_char_toNat _ (Nat.mod_lt _ (by omega)),
    digit_char_toNat _ (Nat.mod_lt _ (by omega)),
    digit_char_toNat _ (Nat.mod_lt _ (by omega)),
    digit_char_toNat _ (Nat.mod_lt _ (by omega))]
  omega

theorem pyUpperChar_length (c : Char) :
    1 ≤ (pyUpperChar c).length ∧ (pyUpperChar c).length ≤ 3 := by
  unfold pyUpperChar
  cases hf : upperTable.find? (fun e => e.1 == c) with
  | none => simp
  | some e =>
    have hmem : e ∈ upperTable := List.mem_of_find?_eq_some hf
    have hall : upperTable.all
        (fun e => decide (1 ≤ e.2.length) && decide (e.2.length ≤ 3)) = true := by
      decide
    have he := List.all_eq_true.mp hall e hmem
    simp only [Bool.and_eq_true, decide_eq_true_eq] at he
    exact he

theorem pyInitials_length (f l : String) :
    (pyInitials f l).data.length = 0 ∨
      (2 ≤ (pyInitials f l).data.length ∧ (pyInitials f l).data.length ≤ 6) := by
  unfold pyInitials
  cases hf : f.data with
  | nil => cases hl : l.data <;> simp
  | cons fc ft =>
    cases hl : l.data with
    | nil => simp
    | cons lc lt =>
      right
      have h1 := pyUpperChar_length fc
      have h2 := pyUpperChar_length lc
      simp only [List.length_append]
      omega

/-- C3 (amended): every identifier is INITIALS ++ "-" ++ DIGITS where INITIALS
is the concatenation of the full uppercase-conversions of the two name
initials — empty when either name is, otherwise 2 to 6 characters — the dash
is always present, and DIGITS is exactly 5 decimal digits with value in
[0, 99999]. -/
theorem generate_shape (first middle last kendra zone email phone : String) :
    ∃ ini ds, (generate first middle last kendra zone email phone).data = ini ++ '-' :: ds ∧
      (ini.length = 0 ∨ (2 ≤ ini.length ∧ ini.length ≤ 6)) ∧ ds.length = 5 ∧
      ds.all Char.isDigit = true ∧ decValue ds ≤ 99999 := by
  refine ⟨(pyInitials first last).data,
    (pad5 (uniqueNumber (first ++ middle ++ last ++ kendra ++ zone ++
      primaryContact phone email))).data,
    ?_, pyInitials_length first last, pad5_length _, pad5_all_digits _, ?_⟩
  · unfold generate
    rw [String.data_append, String.data_append]
    simp [List.append_assoc]
  · rw [decValue_pad5]
    omega

/-- C3 (counterexample): with first "1x" and last "2y" the part before the
dash is "12", which is not made of uppercase letters; and with sharp-s names
the part before the dash is the four characters "SSSS".  The claimed shape
predicate fails on both generated identifiers. -/
theorem claimC3_shape_counterexample :
    generate "1x" "" "2y" "" "" "" "" = "12-37038" ∧
      claimC3ShapeB (generate "1x" "" "2y" "" "" "" "") = false ∧
      generate "ßx" "" "ßy" "" "" "" "" = "SSSS-08817" ∧
      claimC3ShapeB (generate "ßx" "" "ßy" "" "" "" "") = false := by
  refine ⟨by decide, by decide, by decide, by decide⟩

/-- C4: when the normalized first and last names are both non-empty the output
starts with the full uppercase-conversion of the first character of first
followed by that of last; when either is empty the output starts with the
dash. -/
theorem generate_initials_rule (first middle last kendra zone email phone : String) :
    (first ≠ "" → last ≠ "" →
      (generate first middle last kendra zone email phone).data.take
          ((pyUpperChar (first.data.headD ' ')).length +
            (pyUpperChar (last.data.headD ' ')).length) =
        pyUpperChar (first.data.headD ' ') ++ pyUpperChar (last.data.headD ' ')) ∧
    ((first = "" ∨ last = "") →
      (generate first middle last kendra zone email phone).data.headD ' ' = '-') := by
  constructor
  · intro hf hl
    obtain ⟨fd⟩ := first
    obtain ⟨ld⟩ := last
    have hf' : fd ≠ [] := fun h => hf ((string_eq_empty_iff ⟨fd⟩).2 h)
    have hl' : ld ≠ [] := fun h => hl ((string_eq_empty_iff ⟨ld⟩).2 h)
    cases fd with
    | nil => exact absurd rfl hf'
    | cons fc ft =>
      cases ld with
      | nil => exact absurd rfl hl'
      | cons lc lt =>
        unfold generate
        rw [String.data_append, String.data_append]
        have hini : (pyInitials ⟨fc :: ft⟩ ⟨lc :: lt⟩).data =
            pyUpperChar ((⟨fc :: ft⟩ : String).data.headD ' ') ++
              pyUpperChar ((⟨lc :: lt⟩ : String).data.headD ' ') := rfl
        rw [hini, List.append_assoc, ← List.length_append]
        exact List.take_left _ _
  · intro h
    obtain ⟨fd⟩ := first
    obtain ⟨ld⟩ := last
    have hnil : fd = [] ∨ ld = [] := by
      rcases h with h | h
      · exact Or.inl ((string_eq_empty_iff _).1 h)
      · exact Or.inr ((string_eq_empty_iff _).1 h)
    rcases hnil with h' | h'
    · subst h'
      simp [generate, pyInitials, String.data_append]
    · subst h'
      cases fd <;> simp [generate, pyInitials, String.data_append]

/-- C4 witness: first "John" and last "Doe" give an identifier starting with
'J' then 'D'. -/
theorem generate_initials_rule_witness :
    (generate "John" "" "Doe" "" "" "" "").data.take
        ((pyUpperChar ("John".data.headD ' ')).length +
          (pyUpperChar ("Doe".data.headD ' ')).length) = ['J', 'D'] := by
  have h := (generate_initials_rule "John" "" "Doe" "" "" "" "").1 (by decide) (by decide)
  exact h.trans (by decide)

theorem drop_len_sub_five (l1 l2 : List Char) (h : l2.length = 5) :
    (l1 ++ l2).drop ((l1 ++ l2).length - 5) = l2 := by
  rw [List.length_append, h]
  have h5 : l1.length + 5 - 5 = l1.length := by omega
  rw [h5, List.drop_left]

/-- C9: first "Jo" with last "hn" and first "John" with last "" produce the
same concatenation string, hence the same five digits after the dash. -/
theorem generate_boundary_ambiguity (kendra zone email phone : String) :
    ("Jo" ++ "" ++ "hn" ++ kendra ++ zone ++ primaryContact phone email) =
      ("John" ++ "" ++ "" ++ kendra ++ zone ++ primaryContact phone email) ∧
    digitsPart (generate "Jo" "" "hn" kendra zone email phone) =
      digitsPart (generate "John" "" "" kendra zone email phone) := by
  have hcat : ("Jo" ++ "" ++ "hn" : String) = "John" ++ "" ++ "" := by decide
  have hcomb : ("Jo" ++ "" ++ "hn" ++ kendra ++ zone ++ primaryContact phone email) =
      ("John" ++ "" ++ "" ++ kendra ++ zone ++ primaryContact phone email) := by
    rw [hcat]
  refine ⟨hcomb, ?_⟩
  unfold generate digitsPart
  rw [hcomb]
  rw [String.data_append, String.data_append, String.data_append, String.data_append]
  rw [drop_len_sub_five _ _ (pad5_length _), drop_len_sub_five _ _ (pad5_length _)]

/-- C2 (amended): the statistics are the total row count, the number of
distinct identifier values (the sentinel "ERROR" counted like any value), and
a duplicate count of total minus distinct — each value group of size s
contributes s - 1, not s. -/
theorem stats_counts (ids : List String) :
    uniqueCount ids = ids.toFinset.card ∧
    duplicateCount ids = ∑ v in ids.toFinset, (ids.count v - 1) ∧
    duplicateCount ids + uniqueCount ids = ids.length := by
  have hcard : ids.toFinset.card = uniqueCount ids := List.card_toFinset ids
  have hsum : ∑ v in ids.toFinset, ids.count v = ids.length :=
    List.sum_toFinset_count_eq_length ids
  have hpos : ∀ v ∈ ids.toFinset, 1 ≤ ids.count v := by
    intro v hv
    exact List.count_pos_iff.2 (List.mem_toFinset.mp hv)
  have hsub : (∑ v in ids.toFinset, (ids.count v - 1)) + ids.toFinset.card = ids.length := by
    rw [← hsum, Finset.card_eq_sum_ones, ← Finset.sum_add_distrib]
    apply Finset.sum_congr rfl
    intro v hv
    have := hpos v hv
    omega
  have hle : uniqueCount ids ≤ ids.length := (List.dedup_sublist ids).length_le
  unfold duplicateCount
  refine ⟨hcard.symm, ?_, ?_⟩
  · omega
  · omega

/-- C2 (counterexample): on ["AB-00001","CD-00002","AB-00001"] the code's
duplicate statistic is 1, not the claimed 2; and the distinct statistic counts
the "ERROR" sentinel, unlike the claimed non-error distinct count. -/
theorem claimC2_stats_counterexample :
    duplicateCount ["AB-00001", "CD-00002", "AB-00001"] = 1 ∧
    claimDupRowCount ["AB-00001", "CD-00002", "AB-00001"] = 2 ∧
    uniqueCount ["ERROR"] = 1 ∧
    claimDistinctNonError ["ERROR"] = 0 := by
  refine ⟨by decide, by decide, by decide, by decide⟩

theorem zipWith_ids (f : List (Option String) → String)
    (rows : List (List (Option String))) :
    List.zipWith (fun id row => some id :: row) (rows.map f) rows =
      rows.map (fun r => some (f r) :: r) := by
  induction rows with
  | nil => rfl
  | cons r rs ih => simp [ih]

/-- C6: the output table has exactly the input's rows in order, each with all
original cells preserved and one new leading UniqueID cell, under the new
leading column name. -/
theorem processDataframe_preserves (t : Table) (mp : List (String × String)) :
    (processDataframe t mp).cols = "Unique_ID" :: t.cols ∧
    (processDataframe t mp).rows = t.rows.map (fun r => some (rowId mp t.cols r) :: r) ∧
    (processDataframe t mp).rows.length = t.rows.length := by
  have hrows : (processDataframe t mp).rows =
      t.rows.map (fun r => some (rowId mp t.cols r) :: r) := by
    show List.zipWith _ (t.rows.map (rowId mp t.cols)) t.rows = _
    exact zipWith_ids _ _
  refine ⟨rfl, hrows, ?_⟩
  rw [hrows, List.length_map]

/-- C7: a row whose extraction fails gets the literal "ERROR" sentinel, every
other row's result is a function of that row alone, and the batch always
returns as many rows as the input. -/
theorem processDataframe_error_isolation (t : Table) (mp : List (String × String)) (i : Nat)
    (hi : i < t.rows.length)
    (herr : rowIdE mp t.cols (t.rows.getD i []) = .error ()) :
    (processDataframe t mp).rows.length = t.rows.length ∧
    (processDataframe t mp).rows.getD i [] = some "ERROR" :: t.rows.getD i [] ∧
    (∀ j, j < t.rows.length → j ≠ i →
      (processDataframe t mp).rows.getD j [] =
        some (rowId mp t.cols (t.rows.getD j [])) :: t.rows.getD j []) := by
  have hrows : (processDataframe t mp).rows =
      t.rows.map (fun r => some (rowId mp t.cols r) :: r) := by
    show List.zipWith _ (t.rows.map (rowId mp t.cols)) t.rows = _
    exact zipWith_ids _ _
  have hget : ∀ j, j < t.rows.length →
      (processDataframe t mp).rows.getD j [] =
        some (rowId mp t.cols (t.rows.getD j [])) :: t.rows.getD j [] := by
    intro j hj
    rw [hrows, List.getD_eq_getElem _ _ (by simpa using hj), List.getElem_map,
      List.getD_eq_getElem _ _ hj]
  refine ⟨?_, ?_, fun j hj _ => hget j hj⟩
  · rw [hrows, List.length_map]
  · rw [hget i hi]
    unfold rowId
    rw [herr]

/-- C7 witness: with an empty mapping every field lookup is a KeyError, the
first row records "ERROR", and both rows are returned. -/
theorem processDataframe_error_isolation_witness :
    (processDataframe ⟨["A"], [[some "x"], [some "y"]]⟩ []).rows.getD 0 [] =
        some "ERROR" :: [some "x"] ∧
    (processDataframe ⟨["A"], [[some "x"], [some "y"]]⟩ []).rows.length = 2 := by
  have hw := processDataframe_error_isolation ⟨["A"], [[some "x"], [some "y"]]⟩ [] 0
    (by decide) (by rfl)
  exact ⟨hw.2.1, hw.1⟩

theorem getD_set_ne {α : Type} (l : List α) (m n : Nat) (a d : α) (hne : m ≠ n) :
    (l.set m a).getD n d = l.getD n d := by
  induction l generalizing m n with
  | nil => rfl
  | cons x xs ih =>
    cases m with
    | zero =>
      cases n with
      | zero => exact absurd rfl hne
      | succ n => rfl
    | succ m =>
      cases n with
      | zero => rfl
      | succ n => exact ih m n (by omega)

theorem getD_set_self {α : Type} (l : List α) (m : Nat) (a d : α) (hm : m < l.length) :
    (l.set m a).getD m d = a := by
  induction l generalizing m with
  | nil => simp at hm
  | cons x xs ih =>
    cases m with
    | zero => rfl
    | succ m => exact ih m (by simpa using hm)

/-- C10: run over an explicit heap of table objects, the batch applicator
leaves the input table's object untouched — it copies, and inserts the
Unique ID column only into the copy it returns. -/
theorem runProcessHeap_frame (h : List Table) (dfRef : Nat) (mp : List (String × String))
    (href : dfRef < h.length) :
    (runProcessHeap h dfRef mp).1.getD dfRef emptyTable = h.getD dfRef emptyTable ∧
    (runProcessHeap h dfRef mp).2 ≠ dfRef ∧
    (runProcessHeap h dfRef mp).1.getD (runProcessHeap h dfRef mp).2 emptyTable =
      processDataframe (h.getD dfRef emptyTable) mp := by
  simp only [runProcessHeap]
  refine ⟨?_, by omega, ?_⟩
  · rw [getD_set_ne _ _ _ _ _ (by omega), List.getD_append _ _ _ _ href]
  · rw [getD_set_self _ _ _ _ (by simp)]
    rw [List.getD_append_right _ _ _ _ (le_refl _)]
    simp only [Nat.sub_self]
    rfl

/-- C10 witness: a one-table heap is unchanged at the input's reference. -/
theorem runProcessHeap_frame_witness :
    (runProcessHeap [⟨["A"], [[some "x"]]⟩] 0 []).1.getD 0 emptyTable =
      (⟨["A"], [[some "x"]]⟩ : Table) := by
  have hw := runProcessHeap_frame [⟨["A"], [[some "x"]]⟩] 0 [] (by decide)
  exact hw.1.trans (by decide)

end UniqueID
